import Mathlib

/-! Verification of the Mir-Us miRBase query engine (files miBase.py, miObject.py,
utils.py of the Mir-Us repository).

The Python entity classes are embedded as Lean structures carrying miObject.py's
field names; the query and loader functions of miBase.py are embedded as pure
functions over those structures.  Python exceptions are modelled by an
`Except PyErr` layer; the paths that print an error message and then
`return None` are modelled by dedicated outcome constructors, so that the
observably distinct "abort" outcomes stay distinguishable from an ordinary
empty search result. -/

namespace MirUs

/-- Python exceptions that the embedded code can raise. -/
inductive PyErr where
  | attributeError (field : String)
  | valueError
  | typeError
  | keyError
  | indexError
  deriving DecidableEq, Repr

/-- Numeric value of a nonempty, all-digit character list. -/
def digitsVal (l : List Char) : Option Nat :=
  if l ≠ [] ∧ l.all Char.isDigit then
    some (l.foldl (fun a c => a * 10 + (c.toNat - 48)) 0)
  else none

/-- Python `int(s)` on a string: surrounding whitespace stripped, an optional
sign, then decimal digits; `none` models the `ValueError` raised otherwise. -/
def pyInt (s : String) : Option Int :=
  let t := ((s.toList.dropWhile Char.isWhitespace).reverse.dropWhile
      Char.isWhitespace).reverse
  match t with
  | [] => none
  | c :: rest =>
    if c = '+' then (digitsVal rest).map (fun n => (n : Int))
    else if c = '-' then (digitsVal rest).map (fun n => -(n : Int))
    else (digitsVal t).map (fun n => (n : Int))

/-- Python string slice `s[a:b]` (step 1): negative indices count from the end,
and both bounds are clamped to the string length. -/
def pySlice (s : String) (a b : Int) : String :=
  let n : Int := s.length
  let norm : Int → Nat := fun i => (if i < 0 then max 0 (n + i) else min i n).toNat
  String.mk ((s.toList.drop (norm a)).take (norm b - norm a))

/-- Python `s.split(sep)` for a one-character separator, via an accumulator. -/
def splitCharAux (sep : Char) : List Char → List Char → List String
  | [], acc => [String.mk acc.reverse]
  | c :: rest, acc =>
    if c = sep then String.mk acc.reverse :: splitCharAux sep rest []
    else splitCharAux sep rest (c :: acc)

/-- Python `s.split(sep)` for a one-character separator. -/
def splitChar (sep : Char) (s : String) : List String :=
  splitCharAux sep s.toList []

/-- Substring test on character lists (Python `needle in hay` for strings). -/
def subOf (needle : List Char) : List Char → Bool
  | [] => needle.isEmpty
  | c :: rest => needle.isPrefixOf (c :: rest) || subOf needle rest

/-- Python `s.rstrip(";")`: drop every trailing semicolon. -/
def rstripSemicolons (s : String) : String :=
  String.mk ((s.toList.reverse.dropWhile (fun c => c = ';')).reverse)

/-- Python dictionary assignment `d[k] = v` on an association list: update the
first occurrence of the key in place, or append a fresh entry. -/
def assocSet {α : Type} (l : List (String × α)) (k : String) (v : α) :
    List (String × α) :=
  match l with
  | [] => [(k, v)]
  | (k', v') :: t => if k' = k then (k', v) :: t else (k', v') :: assocSet t k v

/-- In-place mutation of the value stored under a key (first occurrence). -/
def updateAssoc {α : Type} (l : List (String × α)) (k : String) (f : α → α) :
    List (String × α) :=
  match l with
  | [] => []
  | (k', v) :: t => if k' = k then (k', f v) :: t else (k', v) :: updateAssoc t k f

/-- The values of a Python dictionary in insertion order (`for k in d` followed
by `d[k]` accesses). -/
def dictValues {α : Type} (d : List (String × α)) : List α :=
  d.map Prod.snd

/-- The pervasive miBase scan loop
`for x in xs: if p(x) and not utils._exists(result, x): result.append(x)`:
filter with append-once deduplication, preserving discovery order.
`utils._exists` compares by identity; in the entity dictionaries every record
is a single instance, so identity coincides with record equality here. -/
def scanFilter {α : Type} [DecidableEq α] (p : α → Bool) (xs : List α) : List α :=
  xs.foldl (fun acc x => if p x = true ∧ x ∉ acc then acc ++ [x] else acc) []

/-- Python `for m in m_ids: if m not in xs: xs.append(m)`. -/
def appendNew (xs : List String) (ys : List String) : List String :=
  ys.foldl (fun acc m => if m ∈ acc then acc else acc ++ [m]) xs

/-- Organism namedtuple (miBase.py line 76). -/
structure Organism where
  organism : String
  division : String
  name : String
  tree : String
  taxid : Option String
  deriving DecidableEq, Repr

/-- Precursor entity, fields as assigned in miObject.py lines 45-57.  The
Python attribute `structure` is a Lean keyword and is rendered `structure_`;
genomic coordinates are stored by the genome parser as decimal strings and
re-parsed with `int()` at every use, which we model directly as integers
(unparseable entries are skipped by every consumer and never participate in
any claim). -/
structure Precursor where
  precursor_ID : String
  precursor_name : String
  precursor_sequence : String
  structure_ : String
  chromosome : List String
  genome_coordinates : List (Int × Int)
  strand : List String
  references : List String
  organism : String
  taxonomy : List String
  miRNAs : List String
  high_confidence : Bool
  deriving DecidableEq, Repr

/-- MiRNA (mature product) entity, fields as assigned in miObject.py lines
128-143.  Note the field names: the owning precursors live in `precursor`,
the names in `mature_name`, and the genomic data in `chromosome_mi`,
`genome_coordinates_mi` and `strand_mi`; the Python attribute `end` is a Lean
keyword and is rendered `end_`. -/
structure MiRNA where
  precursor : List String
  mature_name : List String
  mature_ID : List String
  organism : String
  pair_ID : Option String
  mature_sequence : List String
  mature_positions : List (String × String)
  evidence : List String
  experiment : List String
  end_ : List String
  chromosome_mi : List String
  genome_coordinates_mi : List (String × List (Int × Int))
  strand_mi : List String
  references : List String
  deriving DecidableEq, Repr

/-- The in-memory database held by a MiRBase instance (miBase.py lines 61-70),
restricted to the structures the embedded operations read. -/
structure MiRBaseDB where
  precursors_ID : List (String × Precursor)
  miRNAs_ID : List (String × MiRNA)
  precursors_name : List (String × String)
  matures_name : List (String × String)
  organisms : List Organism
  org_sh : List (String × String)
  structures : List (String × String)
  deriving DecidableEq, Repr

/-- The keyword parameters shared by `get_precursor` (miBase.py line 398) and
`get_mirna` (miBase.py line 813).  String parameters default to the empty
string, list parameters to the empty list; Python truthiness on them is
nonemptiness.  The Python attribute `end` is rendered `end_`. -/
structure Query where
  prec_id : List String := []
  mirna_id : List String := []
  name : String := ""
  organism_name : String := ""
  tax_level : String := ""
  chr : String := ""
  start : String := ""
  end_ : String := ""
  strand : String := ""
  deriving DecidableEq, Repr

/-- Observable outcome of a `get_precursor` / `get_mirna` call.  The three
abort constructors stand for the paths that print a red error message and
`return None`; `noRes` is the plain `return None` of an empty search;
`single` is `return output, len(output)`; `multi` is the contradicting-criteria
return `return dict_result, sum(...)`. -/
inductive QOut (α : Type) where
  | strandAbort
  | coordNegAbort
  | coordOrderAbort
  | noRes
  | single (l : List α) (n : Nat)
  | multi (buckets : List (String × List α)) (n : Nat)
  deriving DecidableEq, Repr

/-- Outcome of the composable genomic chain inside `get_precursor` /
`get_mirna` (before the standalone buckets run). -/
inductive ChainOut (α : Type) where
  | strandAbort
  | negAbort
  | orderAbort
  | res (l : List α)
  deriving DecidableEq, Repr

/-- Observable outcome of a `find_cluster` call: `contraAbort` and `rangeAbort`
are the printed-error `return None` paths, `noRes` the plain empty-result
`return None`, and `res` the `return result, len(result)` success. -/
inductive ClusterOut where
  | contraAbort
  | rangeAbort
  | noRes
  | res (l : List Precursor) (n : Nat)
  deriving DecidableEq, Repr

/-- The `search_type` argument of `find_cluster` may be a string or an int. -/
inductive STVal where
  | str (s : String)
  | int (n : Int)
  deriving DecidableEq, Repr

/-- Python `search_type == lit or search_type == num`. -/
def stEq : STVal → String → Int → Bool
  | .str s, t, _ => s == t
  | .int n, _, m => n == m

/-- Modelled from the spec: `utils._check_strand`, called at miBase.py lines
480, 645, 902 and 1081, is not defined anywhere in utils.py; the spec states
that strand values are restricted to `+` or `-` and that any other value
aborts the call. -/
def checkStrand (s : String) : Bool :=
  s == "+" || s == "-"

/-- The `utils.time_this` decorator (utils.py lines 39-59): a `None` from the
wrapped function is passed through (after printing a no-records message), and
a `(result, count)` pair is unwrapped to its first component, the count being
only printed. -/
def timeThis {α : Type} (v : Option (α × Nat)) : Option α :=
  v.map Prod.fst

/-! Attribute accesses performed by miBase.py on fields that miObject.py does
not define.  Python raises `AttributeError` on such a read; every stub below
records the attribute name miBase asks for, next to a note of the field
miObject actually provides. -/

/-- miBase reads `.precursors` on a mature record (miBase.py lines 608, 1217
and 1516), but miObject.MiRNA stores the owning precursors in the field
`precursor`, so the access raises `AttributeError`. -/
def mirnaPrecursorsAttr (_m : MiRNA) : Except PyErr (List String) :=
  .error (.attributeError "precursors")

/-- miBase reads `.chromosome` on a mature record (miBase.py lines 886, 1077),
but miObject.MiRNA names the field `chromosome_mi`. -/
def mirnaChromosomeAttr (_m : MiRNA) : Except PyErr (List String) :=
  .error (.attributeError "chromosome")

/-- miBase reads `.strand` on a mature record (miBase.py lines 908, 1086),
but miObject.MiRNA names the field `strand_mi`. -/
def mirnaStrandAttr (_m : MiRNA) : Except PyErr (List String) :=
  .error (.attributeError "strand")

/-- miBase reads `.genome_coordinates` on a mature record (miBase.py lines
929-1035), but miObject.MiRNA names the field `genome_coordinates_mi`. -/
def mirnaGenomeCoordsAttr (_m : MiRNA) :
    Except PyErr (List (String × List (Int × Int))) :=
  .error (.attributeError "genome_coordinates")

/-- miBase reads `.ID` on a precursor record (miBase.py lines 793, 1166, 1202
and 1636), but miObject.Precursor names the field `precursor_ID`. -/
def precIDAttr (_p : Precursor) : Except PyErr String :=
  .error (.attributeError "ID")

/-- miBase reads `.name` on a precursor record (miBase.py line 800), but
miObject.Precursor names the field `precursor_name`. -/
def precNameAttr (_p : Precursor) : Except PyErr String :=
  .error (.attributeError "name")

/-! The multi-criteria search of `get_precursor` (miBase.py lines 450-672) and
`get_mirna` (miBase.py lines 865-1111).  The composable genomic chain at the
top only activates under `organism_name and chr or organism_name and strand`
(lines 458, 874); since `organism_name` is then always truthy, the organism
scan always runs first and clears the `first` flag, so the `if first:`
branches of the later chain steps (e.g. lines 468-473, 498-517) are dead code
and are not reproduced here. -/

/-- Chain-activation condition of miBase.py lines 458 and 874. -/
def chainCondition (q : Query) : Prop :=
  (q.organism_name ≠ "" ∧ q.chr ≠ "") ∨ (q.organism_name ≠ "" ∧ q.strand ≠ "")

instance (q : Query) : Decidable (chainCondition q) := by
  unfold chainCondition; infer_instance

/-- Condition guarding the standalone organism bucket (miBase.py lines 622,
1059). -/
def orgSearchCond (q : Query) : Prop :=
  q.start = "" ∧ q.end_ = "" ∧ q.chr = "" ∧ q.strand = "" ∧ q.organism_name ≠ ""

instance (q : Query) : Decidable (orgSearchCond q) := by
  unfold orgSearchCond; infer_instance

/-- Condition guarding the standalone chromosome bucket (miBase.py lines 637,
1074). -/
def chrSearchCond (q : Query) : Prop :=
  q.start = "" ∧ q.end_ = "" ∧ q.organism_name = "" ∧ q.strand = "" ∧ q.chr ≠ ""

instance (q : Query) : Decidable (chrSearchCond q) := by
  unfold chrSearchCond; infer_instance

/-- Condition guarding the standalone strand bucket (miBase.py lines 644,
1080). -/
def strandSearchCond (q : Query) : Prop :=
  q.start = "" ∧ q.end_ = "" ∧ q.organism_name = "" ∧ q.chr = "" ∧ q.strand ≠ ""

instance (q : Query) : Decidable (strandSearchCond q) := by
  unfold strandSearchCond; infer_instance

/-- Coordinate test of the start-and-end chain step (miBase.py lines 514, 534,
936, 957): `int_start <= f_start < int_end and int_start < f_stop <= int_end`. -/
def matchBothCoord (s e : Int) (c : Int × Int) : Bool :=
  decide (s ≤ c.1) && decide (c.1 < e) && decide (s < c.2) && decide (c.2 ≤ e)

/-- Start-and-end refinement step of the precursor chain (miBase.py lines
518-537): keep the previous chain results that own a matching coordinate. -/
def chainCoordBothStep (s e : Int) (rs : List Precursor) : List Precursor :=
  scanFilter (fun p => p.genome_coordinates.any (matchBothCoord s e)) rs

/-- Start-only refinement step of the precursor chain (miBase.py lines
554-567): the test is `int_start <= f_start`. -/
def chainCoordStartStep (s : Int) (rs : List Precursor) : List Precursor :=
  scanFilter (fun p => p.genome_coordinates.any (fun c => decide (s ≤ c.1))) rs

/-- End-only refinement step of the precursor chain (miBase.py lines 584-597):
the test is `int_end >= f_stop`. -/
def chainCoordEndStep (e : Int) (rs : List Precursor) : List Precursor :=
  scanFilter (fun p => p.genome_coordinates.any (fun c => decide (e ≥ c.2))) rs

/-- Coordinate phase of the precursor genomic chain (miBase.py lines 496-597):
three mutually exclusive guarded steps (`start and end`, `not end and start`,
`not start and end`), each parsing its parameters with `int()` (an unhandled
`ValueError` on failure), rejecting negative values and, for the pair,
rejecting `start >= end`, before filtering the previous chain results. -/
def coordsPhase (q : Query) (rs : List Precursor) : Except PyErr (ChainOut Precursor) :=
  if q.start ≠ "" ∧ q.end_ ≠ "" then
    match pyInt q.start with
    | none => .error .valueError
    | some s =>
      match pyInt q.end_ with
      | none => .error .valueError
      | some e =>
        if s < 0 ∨ e < 0 then .ok .negAbort
        else if ¬ s < e then .ok .orderAbort
        else .ok (.res (chainCoordBothStep s e rs))
  else if q.end_ = "" ∧ q.start ≠ "" then
    match pyInt q.start with
    | none => .error .valueError
    | some s =>
      if s < 0 then .ok .negAbort else .ok (.res (chainCoordStartStep s rs))
  else if q.start = "" ∧ q.end_ ≠ "" then
    match pyInt q.end_ with
    | none => .error .valueError
    | some e =>
      if e < 0 then .ok .negAbort else .ok (.res (chainCoordEndStep e rs))
  else .ok (.res rs)

/-- The composable genomic chain of `get_precursor` (miBase.py lines 458-598):
organism scan over the full collection, then chromosome, strand (validated
first, lines 479-482) and coordinate refinements, each filtering only the
previous step's results. -/
def genomicChainPrec (db : MiRBaseDB) (q : Query) : Except PyErr (ChainOut Precursor) :=
  let r0 := scanFilter (fun p => p.organism == q.organism_name)
      (dictValues db.precursors_ID)
  let r1 := if q.chr ≠ "" then scanFilter (fun p => q.chr ∈ p.chromosome) r0 else r0
  if q.strand ≠ "" ∧ checkStrand q.strand = false then .ok .strandAbort
  else
    let r2 := if q.strand ≠ "" then scanFilter (fun p => q.strand ∈ p.strand) r1 else r1
    coordsPhase q r2

/-- `prec_id` bucket of `get_precursor` (miBase.py lines 599-603): the list
comprehension checks `_precursor_retrieve` against the still-empty `result`
list, so unknown ids are dropped and duplicates are kept. -/
def precIdBucket (db : MiRBaseDB) (ids : List String) : List Precursor :=
  ids.filterMap (fun i => List.lookup i db.precursors_ID)

/-- Inner loop of the `mirna_id` bucket of `get_precursor` (miBase.py lines
608-610), reachable only if the `.precursors` read succeeded: look each
owning-precursor id up, stopping this element's collection at the first
`KeyError`; the `utils._exists` guard compares the id string against
precursor objects, so it never deduplicates. -/
def collectPrecsUntilMiss (db : MiRBaseDB) (acc : List Precursor) :
    List String → List Precursor
  | [] => acc
  | pid :: rest =>
    match List.lookup pid db.precursors_ID with
    | none => acc
    | some p => collectPrecsUntilMiss db (acc ++ [p]) rest

/-- `mirna_id` bucket of `get_precursor` (miBase.py lines 604-613): the
`.precursors` read raises `AttributeError`, which the bare `except: continue`
swallows, so every element contributes nothing and the bucket is empty. -/
def mirnaIdBucketP (db : MiRBaseDB) (ids : List String) : List Precursor :=
  ids.foldl (fun acc elem =>
    match List.lookup elem db.miRNAs_ID with
    | none => acc
    | some m =>
      match mirnaPrecursorsAttr m with
      | .error _ => acc
      | .ok precs => collectPrecsUntilMiss db acc precs) []

/-- `name` bucket of `get_precursor` (miBase.py lines 614-621): a double
dictionary lookup inside `try`, with `KeyError` ignored. -/
def nameBucketP (db : MiRBaseDB) (name : String) : List Precursor :=
  match List.lookup name db.precursors_name with
  | none => []
  | some pid =>
    match List.lookup pid db.precursors_ID with
    | none => []
    | some p => [p]

/-- Final aggregation of the evaluated buckets, shared verbatim by
`get_precursor` (miBase.py lines 654-672) and `get_mirna` (lines 1089-1111):
all buckets empty yields `None`; at most one bucket yields that bucket's list
with its length (or `None` when there is no bucket at all); several buckets
yield the whole bucket dictionary with the summed count. -/
def aggregateResults {α : Type} (dict : List (String × List α)) : QOut α :=
  if 1 ≤ dict.length ∧ dict.all (fun kv => kv.2.isEmpty) then .noRes
  else if ¬ 1 < dict.length then
    match dict with
    | [] => .noRes
    | (_, v) :: _ => .single v v.length
  else .multi dict ((dict.map (fun kv => kv.2.length)).sum)

/-- Standalone buckets and aggregation of `get_precursor` (miBase.py lines
599-672), evaluated after the genomic chain; `dict0` carries the chain's
bucket when the chain was active. -/
def afterChain (db : MiRBaseDB) (q : Query)
    (dict0 : List (String × List Precursor)) : QOut Precursor :=
  let dict1 := if q.prec_id ≠ [] then
      dict0 ++ [("prec_id-serch", precIdBucket db q.prec_id)] else dict0
  let dict2 := if q.mirna_id ≠ [] then
      dict1 ++ [("mirna_id-search", mirnaIdBucketP db q.mirna_id)] else dict1
  let dict3 := if q.name ≠ "" then
      dict2 ++ [("name-search", nameBucketP db q.name)] else dict2
  let dict4 := if orgSearchCond q then
      dict3 ++ [("organism-search",
        scanFilter (fun p => p.organism == q.organism_name)
          (dictValues db.precursors_ID))] else dict3
  let dict5 := if q.tax_level ≠ "" then
      dict4 ++ [("tax-search",
        scanFilter (fun p => q.tax_level ∈ p.taxonomy)
          (dictValues db.precursors_ID))] else dict4
  let dict6 := if chrSearchCond q then
      dict5 ++ [("chr-search",
        scanFilter (fun p => q.chr ∈ p.chromosome)
          (dictValues db.precursors_ID))] else dict5
  if strandSearchCond q then
    if checkStrand q.strand = false then .strandAbort
    else aggregateResults (dict6 ++ [("strand-search",
      scanFilter (fun p => q.strand ∈ p.strand) (dictValues db.precursors_ID))])
  else aggregateResults dict6

/-- `MiRBase.get_precursor` (miBase.py lines 398-672). -/
def getPrecursor (db : MiRBaseDB) (q : Query) : Except PyErr (QOut Precursor) :=
  if chainCondition q then
    match genomicChainPrec db q with
    | .error e => .error e
    | .ok .strandAbort => .ok .strandAbort
    | .ok .negAbort => .ok .coordNegAbort
    | .ok .orderAbort => .ok .coordOrderAbort
    | .ok (.res l) => .ok (afterChain db q [("genomic-search", l)])
  else .ok (afterChain db q [])

/-! The `get_mirna` mirror of the search.  Its chain and standalone steps read
`.chromosome`, `.strand` and `.genome_coordinates` on mature records, which
miObject.MiRNA does not define (the fields are `chromosome_mi`, `strand_mi`,
`genome_coordinates_mi`), so every such loop raises `AttributeError` at its
first element and runs through only when its input list is empty. -/

/-- Chromosome refinement step of the mature chain (miBase.py lines 890-899):
each iteration reads `res.chromosome` and therefore raises. -/
def mirnaChrStep (c : String) (rs : List MiRNA) : Except PyErr (List MiRNA) :=
  rs.foldlM (fun acc m =>
    match mirnaChromosomeAttr m with
    | .error e => .error e
    | .ok chrs => .ok (if c ∈ chrs ∧ m ∉ acc then acc ++ [m] else acc)) []

/-- Strand refinement step of the mature chain (miBase.py lines 911-915). -/
def mirnaStrandStep (s : String) (rs : List MiRNA) : Except PyErr (List MiRNA) :=
  rs.foldlM (fun acc m =>
    match mirnaStrandAttr m with
    | .error e => .error e
    | .ok strands => .ok (if s ∈ strands ∧ m ∉ acc then acc ++ [m] else acc)) []

/-- Coordinate refinement step of the mature chain (miBase.py lines 949-960,
985-997, 1023-1035): each iteration reads `res.genome_coordinates` and
therefore raises; the nested key/coordinate loops amount to an `any` over the
flattened per-precursor coordinate map. -/
def mirnaCoordStep (cond : Int × Int → Bool) (rs : List MiRNA) :
    Except PyErr (List MiRNA) :=
  rs.foldlM (fun acc m =>
    match mirnaGenomeCoordsAttr m with
    | .error e => .error e
    | .ok gcs =>
      .ok (if gcs.any (fun kv => kv.2.any cond) ∧ m ∉ acc then acc ++ [m] else acc)) []

/-- Coordinate phase of the mature genomic chain (miBase.py lines 917-1035):
same validation order as the precursor side, then the raising refinement. -/
def coordsPhaseMirna (q : Query) (rs : List MiRNA) : Except PyErr (ChainOut MiRNA) :=
  if q.start ≠ "" ∧ q.end_ ≠ "" then
    match pyInt q.start with
    | none => .error .valueError
    | some s =>
      match pyInt q.end_ with
      | none => .error .valueError
      | some e =>
        if s < 0 ∨ e < 0 then .ok .negAbort
        else if ¬ s < e then .ok .orderAbort
        else (mirnaCoordStep (matchBothCoord s e) rs).map .res
  else if q.end_ = "" ∧ q.start ≠ "" then
    match pyInt q.start with
    | none => .error .valueError
    | some s =>
      if s < 0 then .ok .negAbort
      else (mirnaCoordStep (fun c => decide (s ≤ c.1)) rs).map .res
  else if q.start = "" ∧ q.end_ ≠ "" then
    match pyInt q.end_ with
    | none => .error .valueError
    | some e =>
      if e < 0 then .ok .negAbort
      else (mirnaCoordStep (fun c => decide (e ≥ c.2)) rs).map .res
  else .ok (.res rs)

/-- The composable genomic chain of `get_mirna` (miBase.py lines 874-1036). -/
def genomicChainMirna (db : MiRBaseDB) (q : Query) : Except PyErr (ChainOut MiRNA) :=
  let r0 := scanFilter (fun m => m.organism == q.organism_name)
      (dictValues db.miRNAs_ID)
  match (if q.chr ≠ "" then mirnaChrStep q.chr r0 else .ok r0) with
  | .error e => .error e
  | .ok r1 =>
    if q.strand ≠ "" ∧ checkStrand q.strand = false then .ok .strandAbort
    else
      match (if q.strand ≠ "" then mirnaStrandStep q.strand r1 else .ok r1) with
      | .error e => .error e
      | .ok r2 => coordsPhaseMirna q r2

/-- Inner loop of the `prec_id` bucket of `get_mirna` (miBase.py lines
1045-1047): append a precursor's matures one by one; a dangling mature id
raises `KeyError`, which the surrounding `except: continue` swallows, keeping
the appends already made (the list is mutated in place).  The `utils._exists`
guard compares the mature-id string against MiRNA objects, so it never
deduplicates. -/
def collectMirnasUntilMiss (db : MiRBaseDB) (acc : List MiRNA) :
    List String → List MiRNA
  | [] => acc
  | mid :: rest =>
    match List.lookup mid db.miRNAs_ID with
    | none => acc
    | some m => collectMirnasUntilMiss db (acc ++ [m]) rest

/-- `prec_id` bucket of `get_mirna` (miBase.py lines 1041-1050). -/
def mirnaPrecIdBucket (db : MiRBaseDB) (ids : List String) : List MiRNA :=
  ids.foldl (fun acc elem =>
    match List.lookup elem db.precursors_ID with
    | none => acc
    | some p => collectMirnasUntilMiss db acc p.miRNAs) []

/-- `name` bucket of `get_mirna` (miBase.py lines 1051-1058). -/
def mirnaNameBucket (db : MiRBaseDB) (name : String) : List MiRNA :=
  match List.lookup name db.matures_name with
  | none => []
  | some mid =>
    match List.lookup mid db.miRNAs_ID with
    | none => []
    | some m => [m]

/-- `tax_level` bucket of `get_mirna` (miBase.py lines 1065-1073): scan the
precursors, and for a taxonomy hit append each affiliated mature; the
`self._miRNAs_ID[elem]` lookup is not guarded, so a dangling mature id raises
`KeyError`. -/
def mirnaTaxBucket (db : MiRBaseDB) (tax : String) : Except PyErr (List MiRNA) :=
  (dictValues db.precursors_ID).foldlM (fun acc p =>
    if tax ∈ p.taxonomy then
      p.miRNAs.foldlM (fun acc2 elem =>
        match List.lookup elem db.miRNAs_ID with
        | none => .error .keyError
        | some mi => .ok (if mi ∈ acc2 then acc2 else acc2 ++ [mi])) acc
    else .ok acc) []

/-- Standalone `chr` bucket of `get_mirna` (miBase.py lines 1074-1079): the
loop reads `.chromosome` on each mature and raises at the first one. -/
def mirnaChrSearchBucket (db : MiRBaseDB) (c : String) : Except PyErr (List MiRNA) :=
  mirnaChrStep c (dictValues db.miRNAs_ID)

/-- Standalone `strand` bucket loop of `get_mirna` (miBase.py lines 1084-1088);
the strand validation of lines 1081-1083 happens in the caller, before this
loop, which then reads `.strand` on each mature and raises at the first one. -/
def mirnaStrandSearchBucket (db : MiRBaseDB) (s : String) :
    Except PyErr (List MiRNA) :=
  mirnaStrandStep s (dictValues db.miRNAs_ID)

/-- Standalone buckets and aggregation of `get_mirna` (miBase.py lines
1037-1111), evaluated after the genomic chain. -/
def afterChainM (db : MiRBaseDB) (q : Query)
    (dict0 : List (String × List MiRNA)) : Except PyErr (QOut MiRNA) :=
  let dict1 := if q.mirna_id ≠ [] then
      dict0 ++ [("mirna_id-search",
        q.mirna_id.filterMap (fun i => List.lookup i db.miRNAs_ID))] else dict0
  let dict2 := if q.prec_id ≠ [] then
      dict1 ++ [("prec_id-search", mirnaPrecIdBucket db q.prec_id)] else dict1
  let dict3 := if q.name ≠ "" then
      dict2 ++ [("name-search", mirnaNameBucket db q.name)] else dict2
  let dict4 := if orgSearchCond q then
      dict3 ++ [("organism-search",
        scanFilter (fun m => m.organism == q.organism_name)
          (dictValues db.miRNAs_ID))] else dict3
  match (if q.tax_level ≠ "" then (mirnaTaxBucket db q.tax_level).map some
         else .ok none) with
  | .error e => .error e
  | .ok otax =>
    let dict5 := match otax with
      | some b => dict4 ++ [("tax-search", b)]
      | none => dict4
    match (if chrSearchCond q then (mirnaChrSearchBucket db q.chr).map some
           else .ok none) with
    | .error e => .error e
    | .ok ochr =>
      let dict6 := match ochr with
        | some b => dict5 ++ [("chr-search", b)]
        | none => dict5
      if strandSearchCond q then
        if checkStrand q.strand = false then .ok .strandAbort
        else
          match mirnaStrandSearchBucket db q.strand with
          | .error e => .error e
          | .ok b => .ok (aggregateResults (dict6 ++ [("strand-search", b)]))
      else .ok (aggregateResults dict6)

/-- `MiRBase.get_mirna` (miBase.py lines 813-1111). -/
def getMirna (db : MiRBaseDB) (q : Query) : Except PyErr (QOut MiRNA) :=
  if chainCondition q then
    match genomicChainMirna db q with
    | .error e => .error e
    | .ok .strandAbort => .ok .strandAbort
    | .ok .negAbort => .ok .coordNegAbort
    | .ok .orderAbort => .ok .coordOrderAbort
    | .ok (.res l) => afterChainM db q [("genomic-search", l)]
  else afterChainM db q []

/-! `get_structure` and the single-key lookups. -/

/-- The id-keyed comprehension of `get_structure` (miBase.py line 793):
`{self._precursors_ID[i].ID: self._precursors_ID[i].structure for i in id}`.
An unknown id raises `KeyError` and a known one raises `AttributeError` on
`.ID`; both abort the whole comprehension. -/
def structIdCompr (db : MiRBaseDB) (ids : List String) :
    Except PyErr (List (String × String)) :=
  ids.foldlM (fun acc i =>
    match List.lookup i db.precursors_ID with
    | none => .error .keyError
    | some p =>
      match precIDAttr p with
      | .error e => .error e
      | .ok k => .ok (assocSet acc k p.structure_)) []

/-- The name-keyed comprehension of `get_structure` (miBase.py lines 800-801):
it reads `.name` on every precursor while filtering, raising `AttributeError`
at the first stored precursor. -/
def structNameCompr (db : MiRBaseDB) (names : List String) :
    Except PyErr (List (String × String)) :=
  (dictValues db.precursors_ID).foldlM (fun acc p =>
    match precNameAttr p with
    | .error e => .error e
    | .ok k => .ok (if k ∈ names then assocSet acc k p.structure_ else acc)) []

/-- `MiRBase.get_structure` (miBase.py lines 766-810): each comprehension sits
in a `try` whose bare `except` leaves the corresponding partial dictionary
empty; the two dictionaries are merged and an empty merge returns `None`. -/
def getStructure (db : MiRBaseDB) (id name : List String) :
    Option (List (String × String) × Nat) :=
  let id_result := if id ≠ [] then
      match structIdCompr db id with
      | .error _ => []
      | .ok m => m
    else []
  let name_result := if name ≠ [] then
      match structNameCompr db name with
      | .error _ => []
      | .ok m => m
    else []
  let result := name_result.foldl (fun acc kv => assocSet acc kv.1 kv.2) id_result
  if result = [] then none else some (result, result.length)

/-- `MiRBase._make_tax_dict` (miBase.py lines 268-273): organism full name
mapped to its tree with the trailing semicolons stripped and split on `;`. -/
def makeTaxDict (db : MiRBaseDB) : List (String × List String) :=
  db.organisms.map (fun o => (o.name, splitChar ';' (rstripSemicolons o.tree)))

/-- `MiRBase.get_organisms_list` (miBase.py lines 275-291): returns the raw
organism list, with no count and never `None`; it is also the only query
operation not wrapped in `utils.time_this`. -/
def getOrganismsList (db : MiRBaseDB) : List Organism :=
  db.organisms

/-- The collection loop shared by `get_tax_level` and `get_taxid` (miBase.py
lines 309-316 and 385-392): walk the requested keys, adding each resolvable
one to the result dictionary and skipping the `KeyError` of the rest. -/
def collectAssoc {α : Type} (dct : List (String × α))
    (acc : List (String × α)) : List String → List (String × α)
  | [] => acc
  | org :: t =>
    match List.lookup org dct with
    | some v => collectAssoc dct (assocSet acc org v) t
    | none => collectAssoc dct acc t

/-- `MiRBase.get_tax_level` (miBase.py lines 293-319): build the taxonomy
dictionary, collect the resolvable organisms, return `None` on an empty
result and otherwise the result with its cardinality. -/
def getTaxLevel (db : MiRBaseDB) (organism : List String) :
    Option (List (String × List String) × Nat) :=
  let result := collectAssoc (makeTaxDict db) [] organism
  if result = [] then none else some (result, result.length)

/-- The key-collection loop of `get_organism` (miBase.py lines 336-340):
append each organism whose taxonomy path contains the requested level. -/
def collectKeys (tax : String) (acc : List String) :
    List (String × List String) → List String
  | [] => acc
  | kv :: t => collectKeys tax (if tax ∈ kv.2 then acc ++ [kv.1] else acc) t

/-- `MiRBase.get_organism` (miBase.py lines 321-343): organisms whose taxonomy
path contains the requested level. -/
def getOrganism (db : MiRBaseDB) (tax : String) : Option (List String × Nat) :=
  let result := collectKeys tax [] (makeTaxDict db)
  if result = [] then none else some (result, result.length)

/-- `MiRBase.get_taxid` (miBase.py lines 366-395): organism full name mapped
to its (possibly absent) NCBI taxonomy id. -/
def getTaxid (db : MiRBaseDB) (organism : List String) :
    Option (List (String × Option String) × Nat) :=
  let result := collectAssoc (db.organisms.map (fun o => (o.name, o.taxid))) [] organism
  if result = [] then none else some (result, result.length)

/-- Python `list.index`: position of the first occurrence; `None` models the
`ValueError` raised when the element is absent. -/
def pyListIndex (x : String) : List String → Option Nat
  | [] => none
  | y :: t => if y = x then some 0 else (pyListIndex x t).map (fun n => n + 1)

/-- The value `get_organisms_short` pairs with its count: a single
abbreviation (`result[0]`, the truthy-organism case), the raw one-element
`result` list (when the supplied organism is the falsy empty string but is
stored as a value), or the whole abbreviation table (when no organism is
supplied). -/
inductive OrgShRes where
  | code (s : String)
  | codes (l : List String)
  | table (d : List (String × String))
  deriving DecidableEq, Repr

/-- `MiRBase.get_organisms_short` (miBase.py lines 345-364).  With an
organism supplied (`is not None`),
`list(self._org_sh.keys())[list(self._org_sh.values()).index(organism)]`
raises an uncaught `ValueError` when the organism is not among the stored
full names; otherwise the index-aligned key list yields the abbreviation and
the call returns `result[0] if organism else result` with count 1.  With no
organism the call returns the whole table with its size, or `None` when the
table is empty. -/
def getOrganismsShort (db : MiRBaseDB) (organism : Option String) :
    Except PyErr (Option (OrgShRes × Nat)) :=
  match organism with
  | some org =>
    match pyListIndex org (db.org_sh.map Prod.snd) with
    | none => .error .valueError
    | some i =>
      match (db.org_sh.map Prod.fst).get? i with
      | none => .error .indexError
      | some k =>
        if org ≠ "" then .ok (some (.code k, 1)) else .ok (some (.codes [k], 1))
  | none =>
    if db.org_sh = [] then .ok none
    else .ok (some (.table db.org_sh, db.org_sh.length))

/-! `find_cluster` (miBase.py lines 1114-1232) and its two inner search
functions, whose window computations disagree on the direction of
`upstream` / `downstream`. -/

/-- Window computation of `search_prec2` (miBase.py lines 1143-1154):
`up-downstream`/0 gives `[start-range, start+range]`, `downstream`/2 gives
`[start, start+range]`, `upstream`/1 gives `[start-range, start]`, and an
unrecognized search type leaves the initial `(0, 0)`. -/
def prec2Window (stype : STVal) (start rng : Int) : Int × Int :=
  if stEq stype "up-downstream" 0 then (start - rng, start + rng)
  else if stEq stype "downstream" 2 then (start, start + rng)
  else if stEq stype "upstream" 1 then (start - rng, start)
  else (0, 0)

/-- Window computation of `search_mirna2` (miBase.py lines 1173-1188):
`up-downstream`/0 gives `[start-range, start+range]`, `upstream`/1 gives
`[start, start+range]`, `downstream`/2 gives `[start-range, start]`, and an
unrecognized search type prints an error and returns early (`none`). -/
def mirna2Window (stype : STVal) (start rng : Int) : Option (Int × Int) :=
  if stEq stype "up-downstream" 0 then some (start - rng, start + rng)
  else if stEq stype "upstream" 1 then some (start, start + rng)
  else if stEq stype "downstream" 2 then some (start - rng, start)
  else none

/-- The scan shared by both inner search functions (miBase.py lines 1155-1167
and 1189-1203): over every stored precursor of the anchor's organism and each
of its coordinates, test the window overlap rule and — on a hit that is not
yet in the result — print a diagnostic that reads `prec.ID`, raising
`AttributeError` before the append can happen. -/
def clusterScan (db : MiRBaseDB) (org : String) (w : Int × Int)
    (result : List Precursor) : Except PyErr (List Precursor) :=
  (dictValues db.precursors_ID).foldlM (fun acc p =>
    if p.organism == org then
      p.genome_coordinates.foldlM (fun acc2 c =>
        if matchBothCoord w.1 w.2 c = true ∧ p ∉ acc2 then
          match precIDAttr p with
          | .error e => .error e
          | .ok _ => .ok (acc2 ++ [p])
        else .ok acc2) acc
    else .ok acc) result

/-- `search_prec2` (miBase.py lines 1139-1167). -/
def searchPrec2 (db : MiRBaseDB) (stype : STVal) (org : String)
    (start rng : Int) (result : List Precursor) : Except PyErr (List Precursor) :=
  clusterScan db org (prec2Window stype start rng) result

/-- `search_mirna2` (miBase.py lines 1169-1203): an unrecognized search type
returns early; the caller ignores the return value, so the result list is
simply left unchanged in that case. -/
def searchMirna2 (db : MiRBaseDB) (stype : STVal) (org : String)
    (start rng : Int) (result : List Precursor) : Except PyErr (List Precursor) :=
  match mirna2Window stype start rng with
  | none => .ok result
  | some w => clusterScan db org w result

/-- Python truthiness of an optional string argument. -/
def optTruthy : Option String → Bool
  | some s => s ≠ ""
  | none => false

/-- `int()` applied to the `range` argument: `int(None)` raises `TypeError`
and an unparseable string raises `ValueError`. -/
def pyIntOpt : Option String → Except PyErr Int
  | none => .error .typeError
  | some s =>
    match pyInt s with
    | some n => .ok n
    | none => .error .valueError

/-- `MiRBase.find_cluster` (miBase.py lines 1114-1232).  Supplying both
anchors prints an error and returns `None` (`contraAbort`); a negative range
likewise (`rangeAbort`).  A mature anchor then reads `.precursors` on the
anchor record (line 1217) and raises; a precursor anchor scans and raises at
its first window hit (the `prec.ID` diagnostic); an empty final result
returns `None`. -/
def findCluster (db : MiRBaseDB) (mirna_id prec_id : Option String)
    (stype : STVal) (rng : Option String) : Except PyErr ClusterOut :=
  if mirna_id.isSome ∧ prec_id.isSome then .ok .contraAbort
  else if optTruthy mirna_id then
    match pyIntOpt rng with
    | .error e => .error e
    | .ok r =>
      if r < 0 then .ok .rangeAbort
      else
        match List.lookup (mirna_id.getD "") db.miRNAs_ID with
        | none => .error .keyError
        | some m =>
          match mirnaPrecursorsAttr m with
          | .error e => .error e
          | .ok precs =>
            match precs.head? with
            | none => .error .indexError
            | some p0 =>
              match List.lookup p0 db.precursors_ID with
              | none => .error .keyError
              | some prec =>
                match prec.genome_coordinates.foldlM (fun acc c =>
                    searchMirna2 db stype m.organism c.1 r acc) [] with
                | .error e => .error e
                | .ok result =>
                  if result = [] then .ok .noRes
                  else .ok (.res result result.length)
  else if optTruthy prec_id then
    match pyIntOpt rng with
    | .error e => .error e
    | .ok r =>
      if r < 0 then .ok .rangeAbort
      else
        match List.lookup (prec_id.getD "") db.precursors_ID with
        | none => .error .keyError
        | some prec =>
          match prec.genome_coordinates.foldlM (fun acc c =>
              searchPrec2 db stype prec.organism c.1 r acc) [] with
          | .error e => .error e
          | .ok result =>
            if result = [] then .ok .noRes
            else .ok (.res result result.length)
  else .ok .noRes

/-! The sequence-record loader `MiRLoad.load_miRNA` (miBase.py lines
1415-1534), modelled at the level of already-tokenized records: the line-level
scanning of lines 1425-1485 yields, per record, the display name (`ID` line),
the identifier (`AC` line), the reference numbers (`RX` lines), the
mature-product sub-records of the feature table, and the full sequence. -/

/-- One mature-product sub-record of the feature table, in the order the
qualifier lines fill `products[c]`: position range, accession, product name,
evidence, experiment text. -/
structure MatProduct where
  start : String
  end_ : String
  ac : String
  product : String
  evidence : String
  experiment : String
  deriving DecidableEq, Repr

/-- One record of the miRNA.dat stream after tokenization. -/
structure DatRecord where
  name_p : String
  id_p : String
  ref : List String
  products : List MatProduct
  seq_full : String
  deriving DecidableEq, Repr

/-- The four dictionaries `load_miRNA` populates. -/
structure LoadState where
  precursors_ID : List (String × Precursor)
  precursors_name : List (String × String)
  miRNAs_ID : List (String × MiRNA)
  matures_name : List (String × String)
  deriving DecidableEq, Repr

/-- Arm-end derivation (miBase.py lines 1498-1503): `5p` substring wins, then
`3p`, else `-`. -/
def armEnd (name_mat : String) : String :=
  if subOf "5p".toList name_mat.toList then "5p"
  else if subOf "3p".toList name_mat.toList then "3p"
  else "-"

/-- The Precursor constructed at miBase.py line 1488 via miObject.Precursor. -/
def newPrecursor (id_p name_p seq_full full_name : String)
    (ref m_ids : List String) : Precursor :=
  { precursor_ID := id_p, precursor_name := name_p,
    precursor_sequence := seq_full, structure_ := "", chromosome := [],
    genome_coordinates := [], strand := [], references := ref,
    organism := full_name, taxonomy := [], miRNAs := m_ids,
    high_confidence := false }

/-- The MiRNA constructed at miBase.py lines 1506-1509 via miObject.MiRNA,
including the mature subsequence appended by `get_mature_seq` (miObject.py
lines 169-181), which slices the precursor sequence at the 1-based inclusive
position range. -/
def newMature (full_name id_p : String) (ref : List String) (seq_full : String)
    (mv : MatProduct) (a b : Int) : MiRNA :=
  { precursor := [id_p], mature_name := [mv.product], mature_ID := [mv.ac],
    organism := full_name, pair_ID := none,
    mature_sequence := [pySlice seq_full (a - 1) b],
    mature_positions := [(mv.start, mv.end_)], evidence := [mv.evidence],
    experiment := [mv.experiment], end_ := [armEnd mv.product],
    chromosome_mi := [], genome_coordinates_mi := [], strand_mi := [],
    references := ref }

/-- Per-product step of `load_miRNA` (miBase.py lines 1497-1534).  A fresh
mature accession creates the MiRNA and registers its name; a known accession
enters the update branch, whose first statement
`self._miRNAs_ID[...].precursors.append(id_p)` (line 1516) reads the
`precursors` attribute that miObject.MiRNA does not define (its field is
`precursor`), raising `AttributeError` before any update can happen.
`get_mature_seq` parses the position strings with `int()`, so an unparseable
position raises `ValueError`. -/
def processProduct (full_name id_p : String) (ref : List String)
    (seq_full : String) (st : LoadState) (mv : MatProduct) :
    Except PyErr LoadState :=
  match List.lookup mv.ac st.miRNAs_ID with
  | some _ => .error (.attributeError "precursors")
  | none =>
    match pyInt mv.start, pyInt mv.end_ with
    | some a, some b =>
      .ok { st with
        miRNAs_ID := st.miRNAs_ID ++ [(mv.ac, newMature full_name id_p ref seq_full mv a b)],
        matures_name := assocSet st.matures_name mv.product mv.ac }
    | _, _ => .error .valueError

/-- Per-record step of `load_miRNA` (miBase.py lines 1486-1534): resolve the
organism full name from the name prefix (`KeyError` if unknown), create the
precursor or extend a known precursor's mature list with the unseen product
accessions, then process each product. -/
def processRecord (sh : List (String × String)) (st : LoadState)
    (r : DatRecord) : Except PyErr LoadState :=
  match List.lookup ((splitChar '-' r.name_p).headD "") sh with
  | none => .error .keyError
  | some full_name =>
    let m_ids := r.products.map (fun mv => mv.ac)
    let st1 :=
      if (List.lookup r.id_p st.precursors_ID).isNone then
        { st with
          precursors_ID := st.precursors_ID ++
            [(r.id_p, newPrecursor r.id_p r.name_p r.seq_full full_name r.ref m_ids)],
          precursors_name := assocSet st.precursors_name r.name_p r.id_p }
      else
        { st with
          precursors_ID := updateAssoc st.precursors_ID r.id_p
            (fun p => { p with miRNAs := appendNew p.miRNAs m_ids }) }
    r.products.foldlM (processProduct full_name r.id_p r.ref r.seq_full) st1

/-- `MiRLoad.load_miRNA` over a tokenized record stream, starting from the
empty dictionaries of `MiRBase.__init__`. -/
def loadMiRNA (sh : List (String × String)) (records : List DatRecord) :
    Except PyErr LoadState :=
  records.foldlM (processRecord sh) ⟨[], [], [], []⟩

/-- Bidirectional referential integrity between the precursor and mature
dictionaries: every mature id of a stored precursor resolves to a mature
whose owning-precursor list carries that precursor's key, and conversely. -/
def integrity (st : LoadState) : Prop :=
  (∀ i p, List.lookup i st.precursors_ID = some p → ∀ m ∈ p.miRNAs,
    ∃ mir, List.lookup m st.miRNAs_ID = some mir ∧ i ∈ mir.precursor) ∧
  (∀ m mir, List.lookup m st.miRNAs_ID = some mir → ∀ i ∈ mir.precursor,
    ∃ p, List.lookup i st.precursors_ID = some p ∧ m ∈ p.miRNAs)

/-! Concrete example data used to evaluate the embedded operations. -/

/-- A human organism row as the organism-list parser produces it. -/
def exOrganism : Organism :=
  { organism := "hsa", division := "HSA", name := "Homo sapiens",
    tree := "Metazoa;Chordata;", taxid := some "9606" }

/-- A precursor with one genome placement at (100, 200). -/
def exPrec1 : Precursor :=
  { precursor_ID := "MI0000060", precursor_name := "hsa-mir-60",
    precursor_sequence := "ACGUACGU", structure_ := "((..))",
    chromosome := ["chr1"], genome_coordinates := [(100, 200)],
    strand := ["+"], references := ["1111"], organism := "Homo sapiens",
    taxonomy := ["Metazoa", "Chordata"], miRNAs := ["MIMAT0000062"],
    high_confidence := false }

/-- The mature product of `exPrec1`. -/
def exMir1 : MiRNA :=
  { precursor := ["MI0000060"], mature_name := ["hsa-miR-60-5p"],
    mature_ID := ["MIMAT0000062"], organism := "Homo sapiens",
    pair_ID := none, mature_sequence := ["CGUA"],
    mature_positions := [("2", "5")], evidence := ["experimental"],
    experiment := ["cloned"], end_ := ["5p"], chromosome_mi := ["chr1"],
    genome_coordinates_mi := [("MI0000060", [(120, 140)])],
    strand_mi := ["+"], references := ["1111"] }

/-- A populated database holding `exPrec1` and `exMir1`. -/
def exDb : MiRBaseDB :=
  { precursors_ID := [("MI0000060", exPrec1)],
    miRNAs_ID := [("MIMAT0000062", exMir1)],
    precursors_name := [("hsa-mir-60", "MI0000060")],
    matures_name := [("hsa-miR-60-5p", "MIMAT0000062")],
    organisms := [exOrganism], org_sh := [("hsa", "Homo sapiens")],
    structures := [("MI0000060", "((..))")] }

/-- The database of a fresh instance before any compilation. -/
def emptyDB : MiRBaseDB :=
  { precursors_ID := [], miRNAs_ID := [], precursors_name := [],
    matures_name := [], organisms := [], org_sh := [], structures := [] }

/-- Organism-abbreviation map for the loader examples. -/
def exSh : List (String × String) :=
  [("hsa", "Homo sapiens")]

/-- A first sequence record, carrying one experimental mature product. -/
def exRec1 : DatRecord :=
  { name_p := "hsa-mir-10", id_p := "MIP1", ref := ["11"],
    products := [{ start := "1", end_ := "4", ac := "MA1",
                   product := "hsa-miR-10-5p", evidence := "experimental",
                   experiment := "cloned" }],
    seq_full := "ACGUACGU" }

/-- A second record with a distinct precursor and a distinct mature. -/
def exRec2 : DatRecord :=
  { name_p := "hsa-mir-20", id_p := "MIP2", ref := ["22"],
    products := [{ start := "2", end_ := "5", ac := "MA2",
                   product := "hsa-miR-20-3p", evidence := "by similarity",
                   experiment := "-" }],
    seq_full := "GGGGCCCC" }

/-- A third record that reports the mature `MA1` again, under a new
precursor — the repeated-mature situation of miBase.py lines 1515-1534. -/
def exRec3 : DatRecord :=
  { name_p := "hsa-mir-30", id_p := "MIP3", ref := ["33", "44"],
    products := [{ start := "3", end_ := "6", ac := "MA1",
                   product := "hsa-miR-10-5p", evidence := "experimental",
                   experiment := "sequenced" }],
    seq_full := "UUUUAAAA" }

/-! Auxiliary lemmas about the list combinators of the embedding. -/

theorem mem_scanFilter_foldl {α : Type} [DecidableEq α] (p : α → Bool) :
    ∀ (xs acc : List α) (y : α),
      (y ∈ xs.foldl (fun acc x => if p x = true ∧ x ∉ acc then acc ++ [x] else acc) acc ↔
        y ∈ acc ∨ (y ∈ xs ∧ p y = true)) := by
  intro xs
  induction xs with
  | nil => intro acc y; simp
  | cons x t ih =>
    intro acc y
    rw [List.foldl_cons]
    by_cases hc : p x = true ∧ x ∉ acc
    · rw [if_pos hc, ih]
      simp only [List.mem_append, List.mem_singleton, List.mem_cons,
        List.not_mem_nil, or_false]
      constructor
      · rintro ((h | rfl) | ⟨h1, h2⟩)
        · exact Or.inl h
        · exact Or.inr ⟨Or.inl rfl, hc.1⟩
        · exact Or.inr ⟨Or.inr h1, h2⟩
      · rintro (h | ⟨(rfl | h1), h2⟩)
        · exact Or.inl (Or.inl h)
        · exact Or.inl (Or.inr rfl)
        · exact Or.inr ⟨h1, h2⟩
    · rw [if_neg hc, ih]
      simp only [List.mem_cons]
      constructor
      · rintro (h | ⟨h1, h2⟩)
        · exact Or.inl h
        · exact Or.inr ⟨Or.inr h1, h2⟩
      · rintro (h | ⟨(rfl | h1), h2⟩)
        · exact Or.inl h
        · rcases Classical.em (y ∈ acc) with hin | hout
          · exact Or.inl hin
          · exact absurd ⟨h2, hout⟩ hc
        · exact Or.inr ⟨h1, h2⟩

/-- Membership in a miBase scan loop: exactly the inputs satisfying the
predicate, whatever the dedup guard did to multiplicities. -/
theorem mem_scanFilter {α : Type} [DecidableEq α] (p : α → Bool) (xs : List α)
    (y : α) : y ∈ scanFilter p xs ↔ y ∈ xs ∧ p y = true := by
  rw [scanFilter, mem_scanFilter_foldl]
  simp

theorem lookup_append {α : Type} (k : String) (l1 l2 : List (String × α)) :
    List.lookup k (l1 ++ l2) =
      match List.lookup k l1 with
      | some v => some v
      | none => List.lookup k l2 := by
  induction l1 with
  | nil => simp
  | cons kv t ih =>
    obtain ⟨a, v⟩ := kv
    by_cases h : k = a
    · simp [List.lookup, h]
    · have hb : (k == a) = false := beq_eq_false_iff_ne.mpr h
      simp [List.lookup, hb, ih]

theorem lookup_append_left {α : Type} {k : String} {l1 : List (String × α)}
    (l2 : List (String × α)) {v : α} (h : List.lookup k l1 = some v) :
    List.lookup k (l1 ++ l2) = some v := by
  rw [lookup_append, h]

theorem lookup_append_right {α : Type} {k : String} {l1 : List (String × α)}
    (l2 : List (String × α)) (h : List.lookup k l1 = none) :
    List.lookup k (l1 ++ l2) = List.lookup k l2 := by
  rw [lookup_append, h]

theorem lookup_updateAssoc_self {α : Type} (l : List (String × α)) (k : String)
    (f : α → α) : List.lookup k (updateAssoc l k f) = (List.lookup k l).map f := by
  induction l with
  | nil => simp [updateAssoc]
  | cons kv t ih =>
    obtain ⟨a, v⟩ := kv
    by_cases h : a = k
    · subst h; simp [updateAssoc, List.lookup]
    · have hb : (k == a) = false := beq_eq_false_iff_ne.mpr (fun hk => h hk.symm)
      simp [updateAssoc, h, List.lookup, hb, ih]

theorem lookup_updateAssoc_ne {α : Type} (l : List (String × α)) {k k' : String}
    (f : α → α) (h : k' ≠ k) :
    List.lookup k' (updateAssoc l k f) = List.lookup k' l := by
  induction l with
  | nil => simp [updateAssoc]
  | cons kv t ih =>
    obtain ⟨a, v⟩ := kv
    by_cases hk : a = k
    · subst hk
      have hb : (k' == a) = false := beq_eq_false_iff_ne.mpr h
      simp [updateAssoc, List.lookup, hb]
    · simp [updateAssoc, hk, List.lookup, ih]

theorem mem_appendNew_foldl :
    ∀ (ys xs : List String) (m : String),
      (m ∈ ys.foldl (fun acc x => if x ∈ acc then acc else acc ++ [x]) xs ↔
        m ∈ xs ∨ m ∈ ys) := by
  intro ys
  induction ys with
  | nil => intro xs m; simp
  | cons y t ih =>
    intro xs m
    rw [List.foldl_cons]
    by_cases hy : y ∈ xs
    · rw [if_pos hy, ih]
      constructor
      · rintro (h | h)
        · exact Or.inl h
        · exact Or.inr (List.mem_cons_of_mem _ h)
      · rintro (h | h)
        · exact Or.inl h
        · rcases List.mem_cons.mp h with rfl | h'
          · exact Or.inl hy
          · exact Or.inr h'
    · rw [if_neg hy, ih]
      simp only [List.mem_append, List.mem_singleton, List.mem_cons]
      tauto

/-- Membership after the append-if-absent loop of miBase.py lines 1494-1496. -/
theorem mem_appendNew (xs ys : List String) (m : String) :
    m ∈ appendNew xs ys ↔ m ∈ xs ∨ m ∈ ys := by
  rw [appendNew, mem_appendNew_foldl]

theorem assocSet_ne_nil {α : Type} (l : List (String × α)) (k : String) (v : α) :
    assocSet l k v ≠ [] := by
  cases l with
  | nil => simp [assocSet]
  | cons kv t =>
    obtain ⟨a, b⟩ := kv
    by_cases h : a = k <;> simp [assocSet, h]

theorem foldlM_ok_nil {σ χ ε : Type} {f : σ → χ → Except ε σ} {s r : σ} :
    List.foldlM f s ([] : List χ) = .ok r ↔ s = r := by
  constructor
  · intro h
    simpa [List.foldlM, pure, Except.pure] using h
  · rintro rfl
    simp [List.foldlM, pure, Except.pure]

theorem foldlM_ok_cons {σ χ ε : Type} {f : σ → χ → Except ε σ} {s : σ} {x : χ}
    {xs : List χ} {r : σ} :
    List.foldlM f s (x :: xs) = .ok r ↔
      ∃ s', f s x = .ok s' ∧ List.foldlM f s' xs = .ok r := by
  rw [List.foldlM_cons]
  cases h : f s x with
  | error e => simp [h, Bind.bind, Except.bind]
  | ok s' => simp [h, Bind.bind, Except.bind]

/-! Where a strand abort can come from in `get_precursor`. -/

theorem coordsPhase_ne_strandAbort (q : Query) (rs : List Precursor) :
    coordsPhase q rs ≠ .ok .strandAbort := by
  unfold coordsPhase
  repeat' split
  all_goals simp

theorem genomicChainPrec_strandAbort {db : MiRBaseDB} {q : Query}
    (h : genomicChainPrec db q = .ok .strandAbort) :
    q.strand ≠ "" ∧ checkStrand q.strand = false := by
  simp only [genomicChainPrec] at h
  split_ifs at h with hc
  · exact hc
  all_goals exact absurd h (coordsPhase_ne_strandAbort q _)

theorem aggregateResults_ne_strandAbort {α : Type}
    (dict : List (String × List α)) : aggregateResults dict ≠ .strandAbort := by
  unfold aggregateResults
  repeat' split
  all_goals simp

theorem afterChain_strandAbort {db : MiRBaseDB} {q : Query}
    {dict0 : List (String × List Precursor)}
    (h : afterChain db q dict0 = .strandAbort) :
    strandSearchCond q ∧ checkStrand q.strand = false := by
  simp only [afterChain] at h
  by_cases h1 : strandSearchCond q
  · rw [if_pos h1] at h
    by_cases h2 : checkStrand q.strand = false
    · exact ⟨h1, h2⟩
    · rw [if_neg h2] at h
      exact absurd h (aggregateResults_ne_strandAbort _)
  · rw [if_neg h1] at h
    exact absurd h (aggregateResults_ne_strandAbort _)

/-- A `get_precursor` call only ever strand-aborts after `_check_strand`
failed on its strand argument. -/
theorem getPrecursor_strandAbort {db : MiRBaseDB} {q : Query}
    (h : getPrecursor db q = .ok .strandAbort) :
    checkStrand q.strand = false := by
  unfold getPrecursor at h
  split_ifs at h with hc
  · cases hg : genomicChainPrec db q with
    | error e => rw [hg] at h; simp at h
    | ok co =>
      rw [hg] at h
      cases co with
      | strandAbort => exact (genomicChainPrec_strandAbort hg).2
      | negAbort => simp at h
      | orderAbort => simp at h
      | res l =>
        simp only [Except.ok.injEq] at h
        exact (afterChain_strandAbort h).2
  · simp only [Except.ok.injEq] at h
    exact (afterChain_strandAbort h).2

/-! The `None`-result characterization of the single-key lookup loop. -/

theorem collectAssoc_nil_iff {α : Type} (dct : List (String × α)) :
    ∀ (orgs : List String) (acc : List (String × α)),
      (collectAssoc dct acc orgs = [] ↔
        acc = [] ∧ ∀ o ∈ orgs, List.lookup o dct = none) := by
  intro orgs
  induction orgs with
  | nil => intro acc; simp [collectAssoc]
  | cons o t ih =>
    intro acc
    unfold collectAssoc
    cases h : List.lookup o dct with
    | none =>
      rw [ih]
      constructor
      · rintro ⟨h1, h2⟩
        refine ⟨h1, fun o' ho' => ?_⟩
        rcases List.mem_cons.mp ho' with rfl | h3
        · exact h
        · exact h2 o' h3
      · rintro ⟨h1, h2⟩
        exact ⟨h1, fun o' ho' => h2 o' (List.mem_cons_of_mem _ ho')⟩
    | some v =>
      rw [ih]
      simp only [assocSet_ne_nil, false_and, false_iff, not_and]
      intro _
      intro hall
      have := hall o (List.mem_cons_self o t)
      rw [h] at this
      cases this

theorem collectKeys_nil_iff (tax : String) :
    ∀ (l : List (String × List String)) (acc : List String),
      (collectKeys tax acc l = [] ↔ acc = [] ∧ ∀ kv ∈ l, tax ∉ kv.2) := by
  intro l
  induction l with
  | nil => intro acc; simp [collectKeys]
  | cons kv t ih =>
    intro acc
    unfold collectKeys
    by_cases h : tax ∈ kv.2
    · rw [if_pos h, ih]
      constructor
      · rintro ⟨h1, -⟩
        exact absurd h1 (by simp)
      · rintro ⟨-, h2⟩
        exact absurd h (h2 kv (List.mem_cons_self kv t))
    · rw [if_neg h, ih]
      constructor
      · rintro ⟨h1, h2⟩
        refine ⟨h1, fun kv' hkv' => ?_⟩
        rcases List.mem_cons.mp hkv' with rfl | h3
        · exact h
        · exact h2 kv' h3
      · rintro ⟨h1, h2⟩
        exact ⟨h1, fun kv' hkv' => h2 kv' (List.mem_cons_of_mem _ hkv')⟩

/-! Invariant preservation of the loader (claims C7 and C8). -/

/-- How the per-product fold of one record extends the load state: the
precursor structures are untouched, old mature entries keep resolving to the
same record, and every new mature entry was created for one of the record's
product accessions with the record's precursor as its sole owner. -/
def prodExtends (ip : String) (acs : List String) (st st' : LoadState) : Prop :=
  st'.precursors_ID = st.precursors_ID ∧
  st'.precursors_name = st.precursors_name ∧
  (∀ m mir, List.lookup m st.miRNAs_ID = some mir →
    List.lookup m st'.miRNAs_ID = some mir) ∧
  (∀ m mir, List.lookup m st'.miRNAs_ID = some mir →
    List.lookup m st.miRNAs_ID = some mir ∨ (mir.precursor = [ip] ∧ m ∈ acs))

theorem products_fold_ok (fn ip : String) (ref : List String) (sq : String) :
    ∀ (products : List MatProduct) (st st' : LoadState),
      products.foldlM (processProduct fn ip ref sq) st = .ok st' →
      prodExtends ip (products.map (fun mv => mv.ac)) st st' ∧
      ∀ mv ∈ products, ∃ mir,
        List.lookup mv.ac st'.miRNAs_ID = some mir ∧ ip ∈ mir.precursor := by
  intro products
  induction products with
  | nil =>
    intro st st' h
    rw [foldlM_ok_nil] at h
    subst h
    exact ⟨⟨rfl, rfl, fun _ _ hm => hm, fun _ _ hm => Or.inl hm⟩, by simp⟩
  | cons mv rest ih =>
    intro st st' h
    rw [foldlM_ok_cons] at h
    obtain ⟨s1, h1, h2⟩ := h
    unfold processProduct at h1
    cases hl : List.lookup mv.ac st.miRNAs_ID with
    | some m0 => rw [hl] at h1; cases h1
    | none =>
      rw [hl] at h1
      cases ha : pyInt mv.start with
      | none => rw [ha] at h1; cases h1
      | some a =>
        cases hb : pyInt mv.end_ with
        | none => rw [ha, hb] at h1; cases h1
        | some b =>
          rw [ha, hb] at h1
          injection h1 with h1
          subst h1
          obtain ⟨hext, hres⟩ := ih _ _ h2
          have hmiNew : List.lookup mv.ac
              (st.miRNAs_ID ++ [(mv.ac, newMature fn ip ref sq mv a b)]) =
              some (newMature fn ip ref sq mv a b) := by
            rw [lookup_append_right _ hl]
            simp [List.lookup]
          constructor
          · refine ⟨hext.1, hext.2.1, ?_, ?_⟩
            · intro m mir hm
              exact hext.2.2.1 m mir (lookup_append_left _ hm)
            · intro m mir hm
              rcases hext.2.2.2 m mir hm with hold | ⟨hp, hmem⟩
              · rw [lookup_append] at hold
                cases hst : List.lookup m st.miRNAs_ID with
                | some v =>
                  rw [hst] at hold
                  exact Or.inl hold
                | none =>
                  rw [hst] at hold
                  by_cases hmk : m = mv.ac
                  · subst hmk
                    simp [List.lookup] at hold
                    refine Or.inr ⟨?_, by simp⟩
                    rw [← hold]
                    rfl
                  · have hbk : (m == mv.ac) = false := beq_eq_false_iff_ne.mpr hmk
                    simp [List.lookup, hbk] at hold
              · exact Or.inr ⟨hp, by simp [hmem]⟩
          · intro mv' hmv'
            rcases List.mem_cons.mp hmv' with rfl | htail
            · refine ⟨newMature fn ip ref sq mv' a b, ?_, by simp [newMature]⟩
              exact hext.2.2.1 _ _ hmiNew
            · exact hres mv' htail

/-- One record step preserves referential integrity. -/
theorem processRecord_integrity (sh : List (String × String))
    {st st' : LoadState} {r : DatRecord} (hint : integrity st)
    (h : processRecord sh st r = .ok st') : integrity st' := by
  unfold processRecord at h
  cases hsh : List.lookup ((splitChar '-' r.name_p).headD "") sh with
  | none => rw [hsh] at h; cases h
  | some fn =>
    rw [hsh] at h
    simp only at h
    by_cases hnew : (List.lookup r.id_p st.precursors_ID).isNone
    · -- fresh precursor: appended with miRNAs = m_ids
      rw [if_pos hnew] at h
      have hnone : List.lookup r.id_p st.precursors_ID = none :=
        Option.isNone_iff_eq_none.mp hnew
      obtain ⟨hext, hres⟩ := products_fold_ok fn r.id_p r.ref r.seq_full _ _ _ h
      have hpe : st'.precursors_ID = st.precursors_ID ++
          [(r.id_p, newPrecursor r.id_p r.name_p r.seq_full fn r.ref
            (r.products.map (fun mv => mv.ac)))] := hext.1
      have hpre : ∀ m mir, List.lookup m st.miRNAs_ID = some mir →
          List.lookup m st'.miRNAs_ID = some mir := fun m mir hm =>
        hext.2.2.1 m mir hm
      constructor
      · intro i p hp m hm
        rw [hpe, lookup_append] at hp
        cases hi : List.lookup i st.precursors_ID with
        | some p0 =>
          rw [hi] at hp
          have hp' : p0 = p := by injection hp
          subst hp'
          obtain ⟨mir, hmir, hown⟩ := hint.1 i p0 hi m hm
          exact ⟨mir, hpre m mir hmir, hown⟩
        | none =>
          rw [hi] at hp
          by_cases hik : i = r.id_p
          · subst hik
            simp [List.lookup] at hp
            have hm' : m ∈ r.products.map (fun mv => mv.ac) := by
              rw [← hp] at hm
              exact hm
            obtain ⟨mv, hmv, hac⟩ := List.mem_map.mp hm'
            obtain ⟨mir, hmir, hown⟩ := hres mv hmv
            exact ⟨mir, hac ▸ hmir, hown⟩
          · have hbk : (i == r.id_p) = false := beq_eq_false_iff_ne.mpr hik
            simp [List.lookup, hbk] at hp
      · intro m mir hmir i hi
        rcases hext.2.2.2 m mir hmir with hold | ⟨hp, hmem⟩
        · obtain ⟨p, hpl, hpm⟩ := hint.2 m mir hold i hi
          refine ⟨p, ?_, hpm⟩
          rw [hpe]
          exact lookup_append_left _ hpl
        · rw [hp] at hi
          simp at hi
          subst hi
          refine ⟨newPrecursor r.id_p r.name_p r.seq_full fn r.ref
              (r.products.map (fun mv => mv.ac)), ?_, ?_⟩
          · rw [hpe, lookup_append_right _ hnone]
            simp [List.lookup]
          · exact hmem
    · -- known precursor: updated in place with the unseen product accessions
      rw [if_neg hnew] at h
      cases hPold : List.lookup r.id_p st.precursors_ID with
      | none => rw [hPold] at hnew; simp at hnew
      | some Pold =>
        obtain ⟨hext, hres⟩ := products_fold_ok fn r.id_p r.ref r.seq_full _ _ _ h
        have hpe : st'.precursors_ID = updateAssoc st.precursors_ID r.id_p
            (fun p => { p with
              miRNAs := appendNew p.miRNAs (r.products.map (fun mv => mv.ac)) }) :=
          hext.1
        have hpre : ∀ m mir, List.lookup m st.miRNAs_ID = some mir →
            List.lookup m st'.miRNAs_ID = some mir := fun m mir hm =>
          hext.2.2.1 m mir hm
        constructor
        · intro i p hp m hm
          rw [hpe] at hp
          by_cases hik : i = r.id_p
          · subst hik
            rw [lookup_updateAssoc_self, hPold] at hp
            have hp' : { Pold with
                miRNAs := appendNew Pold.miRNAs
                  (r.products.map (fun mv => mv.ac)) } = p := by
              injection hp
            have hm' : m ∈ appendNew Pold.miRNAs
                (r.products.map (fun mv => mv.ac)) := by
              rw [← hp'] at hm
              exact hm
            rcases (mem_appendNew _ _ _).mp hm' with hmold | hmnew
            · obtain ⟨mir, hmir, hown⟩ := hint.1 _ _ hPold m hmold
              exact ⟨mir, hpre m mir hmir, hown⟩
            · obtain ⟨mv, hmv, hac⟩ := List.mem_map.mp hmnew
              obtain ⟨mir, hmir, hown⟩ := hres mv hmv
              exact ⟨mir, hac ▸ hmir, hown⟩
          · rw [lookup_updateAssoc_ne _ _ hik] at hp
            obtain ⟨mir, hmir, hown⟩ := hint.1 i p hp m hm
            exact ⟨mir, hpre m mir hmir, hown⟩
        · intro m mir hmir i hi
          rcases hext.2.2.2 m mir hmir with hold | ⟨hp, hmem⟩
          · obtain ⟨p, hpl, hpm⟩ := hint.2 m mir hold i hi
            by_cases hik : i = r.id_p
            · subst hik
              have hpp : p = Pold := by
                rw [hpl] at hPold
                injection hPold
              subst hpp
              have key : List.lookup r.id_p st'.precursors_ID = some { p with miRNAs := appendNew p.miRNAs (r.products.map (fun mv => mv.ac)) } := by
                rw [hpe, lookup_updateAssoc_self, hpl]
                rfl
              exact ⟨_, key, (mem_appendNew _ _ _).mpr (Or.inl hpm)⟩
            · refine ⟨p, ?_, hpm⟩
              rw [hpe, lookup_updateAssoc_ne _ _ hik]
              exact hpl
          · rw [hp] at hi
            simp at hi
            subst hi
            have key : List.lookup r.id_p st'.precursors_ID = some { Pold with miRNAs := appendNew Pold.miRNAs (r.products.map (fun mv => mv.ac)) } := by
              rw [hpe, lookup_updateAssoc_self, hPold]
              rfl
            exact ⟨_, key, (mem_appendNew _ _ _).mpr (Or.inr hmem)⟩

/-- The empty dictionaries trivially satisfy the invariant. -/
theorem integrity_empty : integrity ⟨[], [], [], []⟩ := by
  constructor
  · intro i p hp
    cases hp
  · intro m mir hm
    cases hm

theorem fold_records_integrity (sh : List (String × String)) :
    ∀ (records : List DatRecord) (st0 st : LoadState), integrity st0 →
      records.foldlM (processRecord sh) st0 = .ok st → integrity st := by
  intro records
  induction records with
  | nil =>
    intro st0 st h0 h
    rw [foldlM_ok_nil] at h
    exact h ▸ h0
  | cons r rest ih =>
    intro st0 st h0 h
    rw [foldlM_ok_cons] at h
    obtain ⟨s1, h1, h2⟩ := h
    exact ih s1 st (processRecord_integrity sh h0 h1) h2

/-! Helper facts about `get_structure`'s two comprehensions. -/

theorem structIdCompr_cons_err (db : MiRBaseDB) (i : String) (t : List String) :
    ∃ e, structIdCompr db (i :: t) = .error e := by
  unfold structIdCompr
  rw [List.foldlM_cons]
  cases h : List.lookup i db.precursors_ID with
  | none => exact ⟨.keyError, by simp [h, Bind.bind, Except.bind]⟩
  | some p => exact ⟨.attributeError "ID", by simp [h, Bind.bind, Except.bind, precIDAttr]⟩

theorem structNameCompr_err (db : MiRBaseDB) (names : List String) (kv : String × Precursor)
    (t : List (String × Precursor)) (hdb : db.precursors_ID = kv :: t) :
    ∃ e, structNameCompr db names = .error e := by
  unfold structNameCompr
  rw [hdb]
  exact ⟨.attributeError "name", by simp [dictValues, List.foldlM_cons, Bind.bind, Except.bind, precNameAttr]⟩

theorem structNameCompr_nil (db : MiRBaseDB) (names : List String)
    (hdb : db.precursors_ID = []) : structNameCompr db names = .ok [] := by
  unfold structNameCompr
  rw [hdb]
  rfl

/-! The claim theorems. -/

/-- C1: in `get_precursor` and `get_mirna`, after all active search buckets
are evaluated, the shared aggregation step (`aggregateResults`, embedding
miBase.py lines 654-672 and 1089-1111, the sole exit of both functions'
success paths): if every bucket's result list is empty the call returns
`None`; if exactly one bucket exists (and some bucket is nonempty) the call
returns that bucket's list together with its length, unwrapped; if more than
one bucket exists (and some bucket is nonempty) the call returns the mapping
from bucket name to result list together with the summed lengths. -/
theorem bucket_aggregation {α : Type} (dict : List (String × List α)) :
    ((∀ kv ∈ dict, kv.2 = []) → aggregateResults dict = QOut.noRes) ∧
    (∀ k v, dict = [(k, v)] → v ≠ [] →
      aggregateResults dict = QOut.single v v.length) ∧
    (1 < dict.length → (∃ kv ∈ dict, kv.2 ≠ []) →
      aggregateResults dict =
        QOut.multi dict ((dict.map (fun kv => kv.2.length)).sum)) := by
  refine ⟨?_, ?_, ?_⟩
  · intro h
    unfold aggregateResults
    cases dict with
    | nil => simp
    | cons kv t =>
      rw [if_pos]
      refine ⟨by simp, ?_⟩
      rw [List.all_eq_true]
      intro x hx
      have hx2 := h x hx
      simp [hx2]
  · intro k v hd hv
    subst hd
    have hne : ¬ (1 ≤ ([(k, v)] : List (String × List α)).length ∧
        ([(k, v)] : List (String × List α)).all (fun kv => kv.2.isEmpty)) := by
      simp [hv]
    unfold aggregateResults
    rw [if_neg hne, if_pos (by simp)]
  · intro hlen hex
    have hne : ¬ (1 ≤ dict.length ∧ dict.all (fun kv => kv.2.isEmpty)) := by
      rintro ⟨-, hall⟩
      rw [List.all_eq_true] at hall
      obtain ⟨kv, hkv, hkv2⟩ := hex
      have := hall kv hkv
      simp at this
      exact hkv2 this
    unfold aggregateResults
    rw [if_neg hne, if_neg (not_not.mpr hlen)]

/-- Witness for C1 on concrete bucket dictionaries. -/
theorem bucket_aggregation_witness :
    aggregateResults [("tax-search", [exPrec1])] = QOut.single [exPrec1] 1 ∧
    aggregateResults ([] : List (String × List Precursor)) = QOut.noRes ∧
    aggregateResults [("genomic-search", [exPrec1]), ("name-search", [exPrec1])] =
      QOut.multi [("genomic-search", [exPrec1]), ("name-search", [exPrec1])] 2 := by
  refine ⟨?_, ?_, ?_⟩
  · exact (bucket_aggregation _).2.1 "tax-search" [exPrec1] rfl (by simp)
  · exact (bucket_aggregation _).1 (by simp)
  · have h2 := (bucket_aggregation
      [("genomic-search", [exPrec1]), ("name-search", [exPrec1])]).2.2
      (by simp) ⟨("genomic-search", [exPrec1]), by simp⟩
    simpa using h2

/-- C6 (code bug): `get_structure` never returns the promised dictionary —
for every database and every choice of ids and names it returns `None`.  The
id comprehension raises on `.ID` (or on an unknown key), the name
comprehension raises on `.name`, both exceptions are swallowed by the bare
`except` blocks, and the merged result is always empty. -/
theorem get_structure_returns_none (db : MiRBaseDB) (id name : List String) :
    getStructure db id name = none := by
  have hid : (if id ≠ [] then
      (match structIdCompr db id with
       | .error _ => []
       | .ok m => m) else []) = [] := by
    cases id with
    | nil => simp
    | cons i t =>
      obtain ⟨e, he⟩ := structIdCompr_cons_err db i t
      simp [he]
  have hname : (if name ≠ [] then
      (match structNameCompr db name with
       | .error _ => []
       | .ok m => m) else []) = [] := by
    cases name with
    | nil => simp
    | cons n t =>
      cases hdb : db.precursors_ID with
      | nil => simp [structNameCompr_nil db (n :: t) hdb]
      | cons kv tdb =>
        obtain ⟨e, he⟩ := structNameCompr_err db (n :: t) kv tdb hdb
        simp [he]
  unfold getStructure
  rw [hid, hname]
  rfl

/-- C8: after sequence-record parsing completes (the load returns without
raising), the precursor and mature dictionaries satisfy bidirectional
referential integrity: every mature id stored in a precursor's `miRNAs` list
resolves to a mature whose owning-precursor list contains that precursor's
key, and every owning-precursor entry of a mature resolves to a precursor
whose `miRNAs` list contains that mature's key. -/
theorem load_referential_integrity (sh : List (String × String))
    (records : List DatRecord) (st : LoadState)
    (h : loadMiRNA sh records = .ok st) : integrity st :=
  fold_records_integrity sh records ⟨[], [], [], []⟩ st integrity_empty h

/-- Witness for C8 on a concrete two-record stream. -/
theorem load_referential_integrity_witness :
    integrity ((loadMiRNA exSh [exRec1, exRec2]).toOption.getD ⟨[], [], [], []⟩) :=
  load_referential_integrity exSh [exRec1, exRec2] _ (by rfl)

/-- The get_mirna query exercising the genomic chain on `exDb`. -/
def mirnaChainQuery : Query :=
  { organism_name := "Homo sapiens", chr := "chr1", start := "10", end_ := "20" }

/-- C2 (code bug): the interval-matching rule.  On the `get_precursor` side,
each coordinate step of the genomic chain keeps exactly those previous
results owning a coordinate that satisfies the claimed inequalities
(`s <= f_start < e` and `s < f_stop <= e` for the pair, `s <= f_start` for
start only, `e >= f_stop` for end only).  On the `get_mirna` side the same
query never reaches a coordinate test: with one stored mature of the queried
organism the call crashes reading `res.chromosome` (the miObject.MiRNA field
is `chromosome_mi`). -/
theorem interval_matching_semantics :
    (∀ (s e : Int) (rs : List Precursor) (p : Precursor),
      p ∈ chainCoordBothStep s e rs ↔ p ∈ rs ∧
        ∃ c ∈ p.genome_coordinates, s ≤ c.1 ∧ c.1 < e ∧ s < c.2 ∧ c.2 ≤ e) ∧
    (∀ (s : Int) (rs : List Precursor) (p : Precursor),
      p ∈ chainCoordStartStep s rs ↔ p ∈ rs ∧
        ∃ c ∈ p.genome_coordinates, s ≤ c.1) ∧
    (∀ (e : Int) (rs : List Precursor) (p : Precursor),
      p ∈ chainCoordEndStep e rs ↔ p ∈ rs ∧
        ∃ c ∈ p.genome_coordinates, e ≥ c.2) ∧
    getMirna exDb mirnaChainQuery = .error (.attributeError "chromosome") := by
  refine ⟨?_, ?_, ?_, by rfl⟩
  · intro s e rs p
    rw [chainCoordBothStep, mem_scanFilter]
    simp only [List.any_eq_true, matchBothCoord, Bool.and_eq_true,
      decide_eq_true_eq, and_assoc]
  · intro s rs p
    rw [chainCoordStartStep, mem_scanFilter]
    simp only [List.any_eq_true, decide_eq_true_eq]
  · intro e rs p
    rw [chainCoordEndStep, mem_scanFilter]
    simp only [List.any_eq_true, decide_eq_true_eq]

/-- C3 counterexample: a `find_cluster` call with a valid precursor anchor,
mode 0 (up-downstream) and range 150 does not return the precursors whose
interval lies inside the window [-50, 250] — the anchor's own placement
(100, 200) matches, and the diagnostic print then reads `prec.ID`, raising
`AttributeError`. -/
theorem find_cluster_claim_cex :
    findCluster exDb none (some "MI0000060") (.int 0) (some "150") =
      .error (.attributeError "ID") := by rfl

/-- C3 amended: the claimed windows are those of `search_mirna2` (mature
anchors), while `search_prec2` (precursor anchors) swaps them — `upstream`
gives [start-range, start] and `downstream` gives [start, start+range].
Moreover no call ever returns a result list: a mature anchor raises at once
reading `.precursors` on the anchor, a precursor anchor raises at the first
window hit reading `prec.ID` inside the diagnostic print, and only a hitless
scan ends, returning `None`. -/
theorem find_cluster_behavior :
    (∀ start rng : Int,
      prec2Window (.str "up-downstream") start rng = (start - rng, start + rng) ∧
      prec2Window (.str "downstream") start rng = (start, start + rng) ∧
      prec2Window (.str "upstream") start rng = (start - rng, start) ∧
      mirna2Window (.str "up-downstream") start rng = some (start - rng, start + rng) ∧
      mirna2Window (.str "upstream") start rng = some (start, start + rng) ∧
      mirna2Window (.str "downstream") start rng = some (start - rng, start)) ∧
    findCluster exDb none (some "MI0000060") (.str "up-downstream") (some "100") =
      .error (.attributeError "ID") ∧
    findCluster exDb (some "MIMAT0000062") none (.str "up-downstream") (some "10") =
      .error (.attributeError "precursors") ∧
    findCluster exDb none (some "MI0000060") (.str "upstream") (some "100") =
      .ok ClusterOut.noRes := by
  refine ⟨?_, by rfl, by rfl, by rfl⟩
  intro start rng
  exact ⟨rfl, rfl, rfl, rfl, rfl, rfl⟩

/-- C10: start and/or end only take effect inside the composable genomic
chain.  When the chain is inactive and no other bucket-triggering parameter
is supplied, a query carrying start and/or end forms no search bucket at all
and returns `None`, whatever the database holds: the nonempty coordinate
parameters disable the standalone organism, chromosome and strand buckets. -/
theorem coords_require_chain (db : MiRBaseDB) (q : Query)
    (hse : q.start ≠ "" ∨ q.end_ ≠ "")
    (hchain : ¬ chainCondition q)
    (hpid : q.prec_id = []) (hmid : q.mirna_id = [])
    (hname : q.name = "") (htax : q.tax_level = "") :
    getPrecursor db q = .ok QOut.noRes ∧ getMirna db q = .ok QOut.noRes := by
  have horg : ¬ orgSearchCond q := by
    rintro ⟨h1, h2, -, -, -⟩
    rcases hse with h | h
    · exact h h1
    · exact h h2
  have hchr : ¬ chrSearchCond q := by
    rintro ⟨h1, h2, -, -, -⟩
    rcases hse with h | h
    · exact h h1
    · exact h h2
  have hstr : ¬ strandSearchCond q := by
    rintro ⟨h1, h2, -, -, -⟩
    rcases hse with h | h
    · exact h h1
    · exact h h2
  constructor
  · unfold getPrecursor
    rw [if_neg hchain]
    unfold afterChain
    simp [hpid, hmid, hname, htax, horg, hchr, hstr, aggregateResults]
  · unfold getMirna
    rw [if_neg hchain]
    unfold afterChainM
    simp [hpid, hmid, hname, htax, horg, hchr, hstr, aggregateResults]

/-- Witness for C10: a start-only query on a populated database whose single
precursor (and mature) would pass such a coordinate filter. -/
theorem coords_require_chain_witness :
    getPrecursor exDb { start := "100" } = .ok QOut.noRes ∧
    getMirna exDb { start := "100" } = .ok QOut.noRes :=
  coords_require_chain exDb { start := "100" } (by simp) (by decide)
    rfl rfl rfl rfl

/-- The query of the C4 counterexample: a taxonomy filter together with a
chromosome and an invalid strand value. -/
def strandCexQuery : Query :=
  { tax_level := "Metazoa", chr := "chr1", strand := "?" }

/-- C4 counterexample: with `tax_level`, `chr` and the invalid strand `?`,
the strand value is never validated — the chromosome parameter disables the
standalone strand bucket and the strand parameter disables the chromosome
bucket, and without an organism the genomic chain is off — so instead of
aborting with no result, the call returns the taxonomy bucket's results. -/
theorem strand_validation_cex :
    getPrecursor exDb strandCexQuery = .ok (QOut.single [exPrec1] 1) := by rfl

/-- C4 amended (spec-modelled `_check_strand`): strand validation runs exactly
when a strand-consuming bucket runs.  (i) In the genomic chain of
`get_precursor` an invalid strand aborts the call; (ii) likewise in its
standalone strand bucket (strand alone among the genomic parameters);
(iii) a valid strand never triggers the strand abort; (iv) when strand
accompanies chr/start/end without an organism it is never validated, so the
call cannot strand-abort; (v) and (vi): the same two abort paths on the
`get_mirna` side (the chain one stated with empty chr, since a nonempty chr
can make `get_mirna` crash before the strand check). -/
theorem strand_validation_behavior :
    (∀ (db : MiRBaseDB) (q : Query), q.organism_name ≠ "" →
      (q.chr ≠ "" ∨ q.strand ≠ "") → q.strand ≠ "" →
      checkStrand q.strand = false →
      getPrecursor db q = .ok QOut.strandAbort) ∧
    (∀ (db : MiRBaseDB) (q : Query), q.organism_name = "" → q.chr = "" →
      q.start = "" → q.end_ = "" → q.strand ≠ "" →
      checkStrand q.strand = false →
      getPrecursor db q = .ok QOut.strandAbort) ∧
    (∀ (db : MiRBaseDB) (q : Query), checkStrand q.strand = true →
      getPrecursor db q ≠ .ok QOut.strandAbort) ∧
    (∀ (db : MiRBaseDB) (q : Query), q.organism_name = "" →
      (q.chr ≠ "" ∨ q.start ≠ "" ∨ q.end_ ≠ "") →
      getPrecursor db q ≠ .ok QOut.strandAbort) ∧
    (∀ (db : MiRBaseDB) (q : Query), q.organism_name ≠ "" → q.chr = "" →
      q.strand ≠ "" → checkStrand q.strand = false →
      getMirna db q = .ok QOut.strandAbort) ∧
    (∀ (db : MiRBaseDB) (q : Query), q.organism_name = "" → q.chr = "" →
      q.start = "" → q.end_ = "" → q.tax_level = "" → q.strand ≠ "" →
      checkStrand q.strand = false →
      getMirna db q = .ok QOut.strandAbort) := by
  refine ⟨?_, ?_, ?_, ?_, ?_, ?_⟩
  · intro db q h1 h2 h3 h4
    have hc : chainCondition q := Or.inr ⟨h1, h3⟩
    unfold getPrecursor
    rw [if_pos hc]
    have hg : genomicChainPrec db q = .ok .strandAbort := by
      simp [genomicChainPrec, h3, h4]
    rw [hg]
  · intro db q h1 h2 h3 h4 h5 h6
    have hchain : ¬ chainCondition q := by
      unfold chainCondition
      simp [h1]
    have hcond : strandSearchCond q := ⟨h3, h4, h1, h2, h5⟩
    unfold getPrecursor
    rw [if_neg hchain]
    simp only [afterChain]
    rw [if_pos hcond, if_pos h6]
  · intro db q hval heq
    have hfalse := getPrecursor_strandAbort heq
    exact Bool.noConfusion (hval.symm.trans hfalse)
  · intro db q h1 h2 heq
    have hchain : ¬ chainCondition q := by
      unfold chainCondition
      simp [h1]
    unfold getPrecursor at heq
    rw [if_neg hchain] at heq
    simp only [Except.ok.injEq] at heq
    obtain ⟨hcond, -⟩ := afterChain_strandAbort heq
    rcases h2 with h | h | h
    · exact h hcond.2.2.2.1
    · exact h hcond.1
    · exact h hcond.2.1
  · intro db q h1 h2 h3 h4
    have hc : chainCondition q := Or.inr ⟨h1, h3⟩
    unfold getMirna
    rw [if_pos hc]
    have hg : genomicChainMirna db q = .ok .strandAbort := by
      simp [genomicChainMirna, h2, h3, h4]
    rw [hg]
  · intro db q h1 h2 h3 h4 h5 h6 h7
    have hchain : ¬ chainCondition q := by
      unfold chainCondition
      simp [h1]
    have hcond : strandSearchCond q := ⟨h3, h4, h1, h2, h6⟩
    have hchrc : ¬ chrSearchCond q := by
      rintro ⟨-, -, -, -, hcc⟩
      exact hcc h2
    unfold getMirna
    rw [if_neg hchain]
    simp [afterChainM, h5, hcond, h7, h1, h2, h3, h4, hchrc]

/-- Witness for C4 on concrete queries. -/
theorem strand_validation_behavior_witness :
    getPrecursor exDb { organism_name := "Homo sapiens", strand := "x" } = .ok QOut.strandAbort ∧
    getPrecursor exDb { strand := "x" } = .ok QOut.strandAbort ∧
    getPrecursor exDb { organism_name := "Homo sapiens", chr := "chr1", strand := "+" } ≠ .ok QOut.strandAbort ∧
    getPrecursor exDb { chr := "chr1", strand := "x" } ≠ .ok QOut.strandAbort ∧
    getMirna exDb { organism_name := "Homo sapiens", strand := "x" } = .ok QOut.strandAbort ∧
    getMirna exDb { strand := "x" } = .ok QOut.strandAbort := by
  refine ⟨?_, ?_, ?_, ?_, ?_, ?_⟩
  · exact strand_validation_behavior.1 exDb _ (by decide) (by decide) (by decide) (by decide)
  · exact strand_validation_behavior.2.1 exDb _ rfl rfl rfl rfl (by decide) (by decide)
  · exact strand_validation_behavior.2.2.1 exDb _ (by decide)
  · exact strand_validation_behavior.2.2.2.1 exDb _ rfl (by decide)
  · exact strand_validation_behavior.2.2.2.2.1 exDb _ (by decide) rfl (by decide) (by decide)
  · exact strand_validation_behavior.2.2.2.2.2 exDb _ rfl rfl rfl rfl rfl (by decide) (by decide)

/-- The query of the C5 counterexample: a taxonomy filter together with a
negative start coordinate. -/
def startCexQuery : Query :=
  { tax_level := "Metazoa", start := "-5" }

/-- C5 counterexample: a call with the invalid coordinate `start = "-5"` is
not detected and does not return `None` — without the genomic chain the
coordinate parameters are never parsed or validated, and the call returns
the taxonomy bucket's results. -/
theorem input_validation_cex :
    getPrecursor exDb startCexQuery = .ok (QOut.single [exPrec1] 1) := by rfl

/-- C5 amended: coordinate validation in `get_precursor` happens only when
the genomic chain is active, and then (a) an unparseable start raises an
unhandled `ValueError` instead of returning `None`, (b) a negative parsed
start or end aborts with `None`, (c) parsed `start >= end` aborts with
`None`; in `find_cluster`, (d) supplying both anchors aborts with `None`
before anything else, and (e) a negative parsed range aborts with `None`.
Outside the chain, start/end are ignored (see the counterexample). -/
theorem input_validation_behavior :
    (∀ (db : MiRBaseDB) (q : Query), q.organism_name ≠ "" → q.chr ≠ "" →
      q.strand = "" → q.start ≠ "" → q.end_ ≠ "" → pyInt q.start = none →
      getPrecursor db q = .error PyErr.valueError) ∧
    (∀ (db : MiRBaseDB) (q : Query) (s e : Int), q.organism_name ≠ "" →
      q.chr ≠ "" → q.strand = "" → q.start ≠ "" → q.end_ ≠ "" →
      pyInt q.start = some s → pyInt q.end_ = some e → (s < 0 ∨ e < 0) →
      getPrecursor db q = .ok QOut.coordNegAbort) ∧
    (∀ (db : MiRBaseDB) (q : Query) (s e : Int), q.organism_name ≠ "" →
      q.chr ≠ "" → q.strand = "" → q.start ≠ "" → q.end_ ≠ "" →
      pyInt q.start = some s → pyInt q.end_ = some e → 0 ≤ s → 0 ≤ e →
      ¬ s < e → getPrecursor db q = .ok QOut.coordOrderAbort) ∧
    (∀ (db : MiRBaseDB) (a b : String) (stype : STVal) (rng : Option String),
      findCluster db (some a) (some b) stype rng = .ok ClusterOut.contraAbort) ∧
    (∀ (db : MiRBaseDB) (pid rs : String) (stype : STVal) (r : Int),
      pid ≠ "" → pyInt rs = some r → r < 0 →
      findCluster db none (some pid) stype (some rs) = .ok ClusterOut.rangeAbort) := by
  refine ⟨?_, ?_, ?_, ?_, ?_⟩
  · intro db q h1 h2 h3 h4 h5 hparse
    have hc : chainCondition q := Or.inl ⟨h1, h2⟩
    unfold getPrecursor
    rw [if_pos hc]
    have hg : genomicChainPrec db q = .error PyErr.valueError := by
      simp [genomicChainPrec, coordsPhase, h3, h4, h5, hparse]
    rw [hg]
  · intro db q s e h1 h2 h3 h4 h5 hs he hneg
    have hc : chainCondition q := Or.inl ⟨h1, h2⟩
    unfold getPrecursor
    rw [if_pos hc]
    have hg : genomicChainPrec db q = .ok .negAbort := by
      simp [genomicChainPrec, coordsPhase, h3, h4, h5, hs, he, hneg]
    rw [hg]
  · intro db q s e h1 h2 h3 h4 h5 hs he hns hne hlt
    have hc : chainCondition q := Or.inl ⟨h1, h2⟩
    have hneg : ¬ (s < 0 ∨ e < 0) := by omega
    unfold getPrecursor
    rw [if_pos hc]
    have hg : genomicChainPrec db q = .ok .orderAbort := by
      simp [genomicChainPrec, coordsPhase, h3, h4, h5, hs, he, hneg, hlt]
    rw [hg]
  · intro db a b stype rng
    rfl
  · intro db pid rs stype r hpid hr hneg
    simp [findCluster, optTruthy, pyIntOpt, hpid, hr, hneg]

/-- Witness for C5 on concrete calls. -/
theorem input_validation_behavior_witness :
    getPrecursor exDb { organism_name := "Homo sapiens", chr := "chr1", start := "abc", end_ := "250" } = .error PyErr.valueError ∧
    getPrecursor exDb { organism_name := "Homo sapiens", chr := "chr1", start := "-5", end_ := "250" } = .ok QOut.coordNegAbort ∧
    getPrecursor exDb { organism_name := "Homo sapiens", chr := "chr1", start := "50", end_ := "20" } = .ok QOut.coordOrderAbort ∧
    findCluster exDb (some "a") (some "b") (.str "upstream") (some "5") = .ok ClusterOut.contraAbort ∧
    findCluster exDb none (some "MI0000060") (.str "upstream") (some "-3") = .ok ClusterOut.rangeAbort := by
  refine ⟨?_, ?_, ?_, ?_, ?_⟩
  · exact input_validation_behavior.1 exDb _ (by decide) (by decide) rfl
      (by decide) (by decide) (by rfl)
  · exact input_validation_behavior.2.1 exDb _ (-5) 250 (by decide) (by decide)
      rfl (by decide) (by decide) (by rfl) (by rfl) (by decide)
  · exact input_validation_behavior.2.2.1 exDb _ 50 20 (by decide) (by decide)
      rfl (by decide) (by decide) (by rfl) (by rfl) (by decide) (by decide) (by decide)
  · exact input_validation_behavior.2.2.2.1 exDb "a" "b" (.str "upstream") (some "5")
  · exact input_validation_behavior.2.2.2.2 exDb "MI0000060" "-3" (.str "upstream")
      (-3) (by decide) (by rfl) (by decide)

/-- C7 counterexample: re-encountering a known mature identifier does not
append to the existing entity — the update branch's very first statement
reads `.precursors` (the miObject.MiRNA field is `precursor`), so the whole
load raises `AttributeError` and no collection receives anything. -/
theorem mature_update_claim_cex :
    loadMiRNA exSh [exRec1, exRec3] = .error (.attributeError "precursors") := by
  rfl

/-- C7 amended: whenever a product's mature accession is already present in
the mature dictionary, the per-product step of `load_miRNA` raises
`AttributeError` on the `.precursors` read of miBase.py line 1516 (before any
append; had the field names matched, names would append only if absent,
positions/evidence/experiment/arm-end would always append, and the record's
references would be appended — as one joined string — only when the record
carries at most one reference number). -/
theorem mature_update_behavior (full_name id_p : String) (ref : List String)
    (seq_full : String) (st : LoadState) (mv : MatProduct) (mir : MiRNA)
    (h : List.lookup mv.ac st.miRNAs_ID = some mir) :
    processProduct full_name id_p ref seq_full st mv =
      .error (.attributeError "precursors") := by
  unfold processProduct
  rw [h]

/-- Witness for C7: the repeated product of `exRec3` against the state left
by `exRec1`. -/
theorem mature_update_behavior_witness :
    processProduct "Homo sapiens" "MIP3" ["33", "44"] "UUUUAAAA"
      ((loadMiRNA exSh [exRec1]).toOption.getD ⟨[], [], [], []⟩)
      { start := "3", end_ := "6", ac := "MA1", product := "hsa-miR-10-5p", evidence := "experimental", experiment := "sequenced" } =
      .error (.attributeError "precursors") :=
  mature_update_behavior _ _ _ _ _ _ _ (by rfl)

/-- C9 counterexample: `get_organisms_list` does not obey the
result-plus-count discipline — on an empty database it returns the bare empty
list rather than the no-result `None`, and it carries no count; moreover even
for the operations that do build a `(result, count)` pair, the `time_this`
decorator strips the count before the caller sees it. -/
theorem result_count_claim_cex :
    getOrganismsList emptyDB = ([] : List Organism) ∧
    timeThis (getTaxLevel exDb ["Homo sapiens"]) =
      some [("Homo sapiens", ["Metazoa", "Chordata"])] :=
  ⟨rfl, rfl⟩

/-- C9 amended: `get_tax_level`, `get_taxid` and `get_organism` return `None`
exactly when no supplied key resolves, and otherwise the result together with
its cardinality (before the `time_this` decorator strips the count);
`get_organisms_list` is undecorated and returns the raw organism list,
uncounted and never `None`; and `get_organisms_short` returns a known
organism's abbreviation with count 1 (or the whole table with its size when
no organism is passed, `None` when that table is empty) but raises an
uncaught `ValueError` on an unknown organism instead of returning `None`. -/
theorem single_key_lookup_shape :
    (∀ (db : MiRBaseDB) (orgs : List String),
      getTaxLevel db orgs = none ↔
        ∀ o ∈ orgs, List.lookup o (makeTaxDict db) = none) ∧
    (∀ (db : MiRBaseDB) (orgs : List String)
      (r : List (String × List String)) (n : Nat),
      getTaxLevel db orgs = some (r, n) → n = r.length ∧ r ≠ []) ∧
    (∀ (db : MiRBaseDB) (orgs : List String),
      getTaxid db orgs = none ↔
        ∀ o ∈ orgs, List.lookup o (db.organisms.map (fun o => (o.name, o.taxid))) = none) ∧
    (∀ (db : MiRBaseDB) (orgs : List String)
      (r : List (String × Option String)) (n : Nat),
      getTaxid db orgs = some (r, n) → n = r.length ∧ r ≠ []) ∧
    (∀ (db : MiRBaseDB) (tax : String),
      getOrganism db tax = none ↔ ∀ kv ∈ makeTaxDict db, tax ∉ kv.2) ∧
    (∀ (db : MiRBaseDB) (tax : String) (r : List String) (n : Nat),
      getOrganism db tax = some (r, n) → n = r.length ∧ r ≠ []) ∧
    (∀ db : MiRBaseDB, getOrganismsList db = db.organisms) ∧
    (∀ (db : MiRBaseDB) (org : String),
      pyListIndex org (db.org_sh.map Prod.snd) = none →
      getOrganismsShort db (some org) = .error PyErr.valueError) ∧
    (∀ (db : MiRBaseDB) (org : String) (i : Nat) (k : String),
      pyListIndex org (db.org_sh.map Prod.snd) = some i →
      (db.org_sh.map Prod.fst).get? i = some k → org ≠ "" →
      getOrganismsShort db (some org) = .ok (some (OrgShRes.code k, 1))) ∧
    (∀ db : MiRBaseDB,
      (db.org_sh = [] → getOrganismsShort db none = .ok none) ∧
      (db.org_sh ≠ [] → getOrganismsShort db none =
        .ok (some (OrgShRes.table db.org_sh, db.org_sh.length)))) := by
  refine ⟨?_, ?_, ?_, ?_, ?_, ?_, fun db => rfl, ?_, ?_, ?_⟩
  · intro db orgs
    simp only [getTaxLevel]
    by_cases hres : collectAssoc (makeTaxDict db) [] orgs = []
    · rw [if_pos hres]
      constructor
      · intro _
        exact ((collectAssoc_nil_iff (makeTaxDict db) orgs []).mp hres).2
      · intro _
        rfl
    · rw [if_neg hres]
      constructor
      · intro h
        cases h
      · intro hall
        exact absurd ((collectAssoc_nil_iff (makeTaxDict db) orgs []).mpr
          ⟨rfl, hall⟩) hres
  · intro db orgs r n h
    simp only [getTaxLevel] at h
    split_ifs at h with hres
    cases h
    exact ⟨rfl, hres⟩
  · intro db orgs
    simp only [getTaxid]
    by_cases hres : collectAssoc (db.organisms.map (fun o => (o.name, o.taxid))) [] orgs = []
    · rw [if_pos hres]
      constructor
      · intro _
        exact ((collectAssoc_nil_iff _ orgs []).mp hres).2
      · intro _
        rfl
    · rw [if_neg hres]
      constructor
      · intro h
        cases h
      · intro hall
        exact absurd ((collectAssoc_nil_iff _ orgs []).mpr ⟨rfl, hall⟩) hres
  · intro db orgs r n h
    simp only [getTaxid] at h
    split_ifs at h with hres
    cases h
    exact ⟨rfl, hres⟩
  · intro db tax
    simp only [getOrganism]
    by_cases hres : collectKeys tax [] (makeTaxDict db) = []
    · rw [if_pos hres]
      constructor
      · intro _
        exact ((collectKeys_nil_iff tax (makeTaxDict db) []).mp hres).2
      · intro _
        rfl
    · rw [if_neg hres]
      constructor
      · intro h
        cases h
      · intro hall
        exact absurd ((collectKeys_nil_iff tax (makeTaxDict db) []).mpr
          ⟨rfl, hall⟩) hres
  · intro db tax r n h
    simp only [getOrganism] at h
    split_ifs at h with hres
    cases h
    exact ⟨rfl, hres⟩
  · intro db org h
    simp [getOrganismsShort, h]
  · intro db org i k h1 h2 h3
    simp only [getOrganismsShort, h1]
    rw [h2]
    simp [h3]
  · intro db
    constructor
    · intro h
      simp [getOrganismsShort, h]
    · intro h
      simp [getOrganismsShort, h]

/-- Witness for C9 on the example databases, exercising the resolvable and
unresolvable cases of each lookup and both `get_organisms_short` outcomes. -/
theorem single_key_lookup_shape_witness :
    getTaxLevel exDb ["nobody"] = none ∧
    (1 = ([("Homo sapiens", ["Metazoa", "Chordata"])] : List (String × List String)).length ∧
      ([("Homo sapiens", ["Metazoa", "Chordata"])] : List (String × List String)) ≠ []) ∧
    getTaxid exDb ["nobody"] = none ∧
    getOrganism exDb "Bacteria" = none ∧
    getOrganismsShort exDb (some "Mus musculus") = .error PyErr.valueError ∧
    getOrganismsShort exDb (some "Homo sapiens") = .ok (some (OrgShRes.code "hsa", 1)) ∧
    getOrganismsShort exDb none = .ok (some (OrgShRes.table [("hsa", "Homo sapiens")], 1)) ∧
    getOrganismsShort emptyDB none = .ok none := by
  refine ⟨?_, ?_, ?_, ?_, ?_, ?_, ?_, ?_⟩
  · exact (single_key_lookup_shape.1 exDb ["nobody"]).mpr (by decide)
  · exact single_key_lookup_shape.2.1 exDb ["Homo sapiens"] _ _ (by rfl)
  · exact (single_key_lookup_shape.2.2.1 exDb ["nobody"]).mpr (by decide)
  · exact (single_key_lookup_shape.2.2.2.2.1 exDb "Bacteria").mpr (by decide)
  · exact single_key_lookup_shape.2.2.2.2.2.2.2.1 exDb "Mus musculus" (by rfl)
  · exact single_key_lookup_shape.2.2.2.2.2.2.2.2.1 exDb "Homo sapiens" 0 "hsa"
      (by rfl) (by rfl) (by decide)
  · exact (single_key_lookup_shape.2.2.2.2.2.2.2.2.2 exDb).2 (by decide)
  · exact (single_key_lookup_shape.2.2.2.2.2.2.2.2.2 emptyDB).1 (by rfl)

end MirUs
